import Mathlib

/-!
Verification development for the POS_PROJET repository.

The repository consists of three administrative Python scripts:
`cors_config.py` (mutation of `site_config.json` and static CORS headers),
`setup_pos.py` (seeding of POS entities through the host framework's ORM),
and `hooks_additions.py` (documentation text only).

This file gives a shallow embedding of the two executable scripts:
JSON objects and Python dicts become association lists, the framework
database becomes an explicit record of entity lists, and fallible code
runs in an exception-plus-state monad.  Framework-internal behaviour
that the scripts rely on (existence checks, duplicate-entry errors on
insert, record naming) is modelled explicitly next to each definition.
-/

namespace POSRepo

/-! ## Association lists: the model of Python dicts / JSON objects -/

/-- Lookup of a key in an association list (Python `d[k]` / `d.get(k)`),
first occurrence wins, as in a Python dict where keys are unique. -/
def alget {α : Type} : List (String × α) → String → Option α
  | [], _ => none
  | (k', v) :: t, k => if k' = k then some v else alget t k

/-- Assignment `d[k] = v` on a Python dict: replace the first binding of
`k` if present, otherwise append the new binding at the end. -/
def alset {α : Type} : List (String × α) → String → α → List (String × α)
  | [], k, v => [(k, v)]
  | (k', v') :: t, k, v => if k' = k then (k, v) :: t else (k', v') :: alset t k v

/-- Python `k in d`. -/
def alcontains {α : Type} (d : List (String × α)) (k : String) : Bool :=
  (alget d k).isSome

theorem alget_alset_self {α : Type} (d : List (String × α)) (k : String) (v : α) :
    alget (alset d k v) k = some v := by
  induction d with
  | nil => simp [alget, alset]
  | cons h t ih =>
      obtain ⟨k', v'⟩ := h
      by_cases hk : k' = k
      · simp [alget, alset, hk]
      · simp [alget, alset, hk, ih]

theorem alget_alset_ne {α : Type} (d : List (String × α)) (k k' : String) (v : α)
    (hne : k' ≠ k) : alget (alset d k v) k' = alget d k' := by
  induction d with
  | nil => simp [alget, alset, Ne.symm hne]
  | cons hd t ih =>
      obtain ⟨k0, v0⟩ := hd
      by_cases hk : k0 = k
      · subst hk
        simp [alget, alset, Ne.symm hne]
      · by_cases hk' : k0 = k'
        · simp [alget, alset, hk, hk', hne]
        · simp [alget, alset, hk, hk', ih]

/-! ## JSON values (`site_config.json` contents) -/

/-- A JSON value as read by `json.load` / written by `json.dump`. -/
inductive JValue where
  | null : JValue
  | bool (b : Bool) : JValue
  | num (n : Int) : JValue
  | str (s : String) : JValue
  | arr (xs : List JValue) : JValue
  | obj (fields : List (String × JValue)) : JValue
deriving Repr

/-- A JSON object's fields: the model of the in-memory `config` dict. -/
abbrev JDict := List (String × JValue)

/-- Environment of one run of a `cors_config.py` function: whether
`site_config.json` exists, whether `json.load` succeeds (yielding
`config`), and whether the `json.dump` write-back succeeds. -/
structure FileEnv where
  fileExists : Bool
  readOk : Bool
  writeOk : Bool
  config : JDict

/-! ## cors_config.py -/

/-- `CORS_HEADERS` constant of `cors_config.py`. -/
def CORS_HEADERS : List (String × String) :=
  [("Access-Control-Allow-Origin", "*"),
   ("Access-Control-Allow-Methods", "GET, POST, PUT, DELETE, OPTIONS, PATCH"),
   ("Access-Control-Allow-Headers",
     "Content-Type, Authorization, X-Frappe-CSRF-Token, X-Frappe-Site-Name"),
   ("Access-Control-Allow-Credentials", "true"),
   ("Access-Control-Max-Age", "86400")]

/-- `get_cors_headers`: returns a copy of `CORS_HEADERS`. -/
def get_cors_headers : List (String × String) := CORS_HEADERS

/-- `add_cors_headers(response)`: when a response is given, set each of
the `CORS_HEADERS` on `response.headers`; always return `CORS_HEADERS`.
Response headers are modelled as an association list. -/
def add_cors_headers (response : Option (List (String × String))) :
    Option (List (String × String)) × List (String × String) :=
  match response with
  | some r => (some (CORS_HEADERS.foldl (fun acc kv => alset acc kv.1 kv.2) r), CORS_HEADERS)
  | none => (none, CORS_HEADERS)

/-- Body of the `try` block of `enable_cors`.  The result is the pair
(content written back to `site_config.json` if any, returned bool);
`throw` marks the Python exceptions that can escape the block:
`json.load` failure, the `TypeError` raised by
`config['api_settings'][...] = 1` when `api_settings` holds a
non-object, and `json.dump` failure.  The `frappe.local` block of the
source is wrapped in its own `try/except: pass` and cannot raise. -/
def enable_cors_try (origins : JValue) (env : FileEnv) :
    Except String (Option JDict × Bool) :=
  if env.fileExists then
    if !env.readOk then .error "json.load failed" else
    let config := env.config
    let c1 := alset config "allow_cors" origins
    let c2 := alset c1 "ignore_csrf" (JValue.num 1)
    let c3 := if alcontains c2 "api_settings" then c2
              else alset c2 "api_settings" (JValue.obj [])
    match alget c3 "api_settings" with
    | some (JValue.obj d) =>
        let d1 := alset d "enable_api" (JValue.num 1)
        let d2 := alset d1 "allow_api_key_authentication" (JValue.num 1)
        let c4 := alset c3 "api_settings" (JValue.obj d2)
        if env.writeOk then .ok (some c4, true) else .error "json.dump failed"
    | _ => .error "TypeError: item assignment on non-dict api_settings"
  else
    .ok (none, false)

/-- `enable_cors(origins)`: the catch-all handler turns any exception of
the body into a plain `return False` (nothing written). -/
def enable_cors (origins : JValue) (env : FileEnv) : Option JDict × Bool :=
  match enable_cors_try origins env with
  | .ok r => r
  | .error _ => (none, false)

/-- The fresh `api_settings` object built by `configure_api_settings`. -/
def api_settings_obj (rate_limit rate_limit_window : Int) : JValue :=
  JValue.obj
    [("enable_api", JValue.num 1),
     ("allow_api_key_authentication", JValue.num 1),
     ("rate_limit", JValue.num rate_limit),
     ("rate_limit_window", JValue.num rate_limit_window)]

/-- Body of the `try` block of `configure_api_settings`.  Note that the
source has no `else` on `if os.path.exists(...)`: with the file absent
it writes nothing and still reaches `return True`.  The System Settings
block is wrapped in its own inner `try/except` and cannot raise. -/
def configure_api_settings_try (rate_limit rate_limit_window : Int) (env : FileEnv) :
    Except String (Option JDict × Bool) :=
  if env.fileExists then
    if !env.readOk then .error "json.load failed" else
    let c := alset env.config "api_settings" (api_settings_obj rate_limit rate_limit_window)
    if env.writeOk then .ok (some c, true) else .error "json.dump failed"
  else .ok (none, true)

/-- `configure_api_settings(rate_limit, rate_limit_window)`: catch-all
handler returns `False` (nothing written). -/
def configure_api_settings (rate_limit rate_limit_window : Int) (env : FileEnv) :
    Option JDict × Bool :=
  match configure_api_settings_try rate_limit rate_limit_window env with
  | .ok r => r
  | .error _ => (none, false)

/-- Body of the `try` block of `disable_csrf`.  No existence check in
the source: `open` on a missing file raises `FileNotFoundError`. -/
def disable_csrf_try (env : FileEnv) : Except String (Option JDict × Bool) :=
  if !env.fileExists then .error "FileNotFoundError" else
  if !env.readOk then .error "json.load failed" else
  let c := alset env.config "ignore_csrf" (JValue.num 1)
  if env.writeOk then .ok (some c, true) else .error "json.dump failed"

/-- `disable_csrf()`: catch-all handler returns `False`. -/
def disable_csrf (env : FileEnv) : Option JDict × Bool :=
  match disable_csrf_try env with
  | .ok r => r
  | .error _ => (none, false)

/-- The in-place nested assignment `config['api_settings'][...] = 1` of
`enable_cors` succeeds exactly when `api_settings` is absent (the script
first installs `{}`) or maps to an object. -/
def apiSettingsOk (d : JDict) : Bool :=
  match alget d "api_settings" with
  | some (JValue.obj _) => true
  | none => true
  | some _ => false

/-! ## setup_pos.py: constants and API credential generation -/

/-- Python `string.ascii_letters`. -/
def string_ascii_letters : String :=
  "abcdefghijklmnopqrstuvwxyzABCDEFGHIJKLMNOPQRSTUVWXYZ"

/-- Python `string.digits`. -/
def string_digits : String := "0123456789"

/-- The alphabet `string.ascii_letters + string.digits` that both
generators draw from. -/
def apiAlphabet : String := string_ascii_letters ++ string_digits

theorem apiAlphabet_len : apiAlphabet.data.length = 62 := by decide

/-- One call of `secrets.choice(string.ascii_letters + string.digits)`,
the random draw given as an index into the 62-character alphabet. -/
def secretsChoice (i : Fin 62) : Char :=
  apiAlphabet.data.get (Fin.cast apiAlphabet_len.symm i)

/-- `generate_api_key`: 20 independent draws joined into a string.  The
randomness of `secrets.choice` is supplied as the function `draw`. -/
def generate_api_key (draw : Nat → Fin 62) : String :=
  String.mk ((List.range 20).map fun i => secretsChoice (draw i))

/-- `generate_api_secret`: 40 independent draws joined into a string. -/
def generate_api_secret (draw : Nat → Fin 62) : String :=
  String.mk ((List.range 40).map fun i => secretsChoice (draw i))

/-- `POS_USER_EMAIL` constant. -/
def POS_USER_EMAIL : String := "pos_user@example.com"

/-- `POS_USER_PASSWORD` constant. -/
def POS_USER_PASSWORD : String := "pos_password_123"

/-- `DEFAULT_PRICE_LIST` constant. -/
def DEFAULT_PRICE_LIST : String := "Standard Selling"

/-- `DEFAULT_POS_PROFILE` constant. -/
def DEFAULT_POS_PROFILE : String := "Default POS Profile"

/-- `DEFAULT_COMPANY` constant. -/
def DEFAULT_COMPANY : String := "My Company"

/-- `DEFAULT_CUSTOMER` constant. -/
def DEFAULT_CUSTOMER : String := "Walk-in Customer"

/-- The `required_roles` list of `create_pos_user`. -/
def requiredRoles : List String :=
  ["POS User", "Sales User", "Stock User", "Item Manager"]

/-- One entry of the `SAMPLE_ITEMS` constant. -/
structure SampleItem where
  item_code : String
  item_name : String
  rate : Int
  barcode : String
deriving DecidableEq, Repr

/-- The `SAMPLE_ITEMS` constant. -/
def SAMPLE_ITEMS : List SampleItem :=
  [⟨"ITEM-001", "Produit Test 1", 100, "1000000001"⟩,
   ⟨"ITEM-002", "Produit Test 2", 250, "1000000002"⟩,
   ⟨"ITEM-003", "Produit Test 3", 50, "1000000003"⟩,
   ⟨"ITEM-004", "Produit Test 4", 500, "1000000004"⟩,
   ⟨"ITEM-005", "Produit Test 5", 75, "1000000005"⟩]

/-! ## setup_pos.py: framework database model -/

/-- A framework `User` record: the fields of the User doctype that the
script reads or writes.  `roles` models the `Has Role` child rows with
this user as parent; the API fields are `None` when never set and `""`
is distinct from `None` (Python truthiness distinguishes both from a
real key). -/
structure UserRec where
  email : String
  roles : List String
  api_key : Option String
  api_secret : Option String
deriving DecidableEq, Repr

/-- A framework `Warehouse` record: name, owning company and the
`is_group` flag consulted by the parent-warehouse lookup. -/
structure WarehouseRec where
  name : String
  company : String
  isGroup : Bool
deriving DecidableEq, Repr

/-- The record sets that `setup_pos.py` touches, each keyed by the
framework `name` of the record.  The framework's automatic naming is
modelled as the name the script itself computes and checks with
`frappe.db.exists` (company name, computed warehouse name, price list
name, profile name, customer name, item code). -/
structure DBCore where
  companies : List String
  users : List UserRec
  roles : List String
  warehouses : List WarehouseRec
  priceLists : List String
  posProfiles : List String
  customers : List String
  items : List String
  itemGroups : List String
  itemPrices : List (String × String)
  stockEntries : List (String × String)
deriving DecidableEq, Repr

/-- Database state: `cur` is the working transaction,
`committed` the state restored by `frappe.db.rollback()`. -/
structure DBState where
  cur : DBCore
  committed : DBCore
deriving DecidableEq, Repr

/-- Python exceptions distinguished by the script's handlers. -/
inductive PyErr where
  | duplicateEntry : PyErr
  | doesNotExist : PyErr
  | other (msg : String) : PyErr
deriving DecidableEq, Repr

/-- The monad of the script: state threading over the framework
database, plus Python exceptions.  A raised exception keeps the
database mutations made so far (frappe's DB is global). -/
def SetupM (α : Type) : Type := DBState → Except PyErr α × DBState

instance : Monad SetupM where
  pure a := fun s => (.ok a, s)
  bind x f := fun s =>
    match x s with
    | (.ok a, s') => f a s'
    | (.error e, s') => (.error e, s')

/-- Read the database state. -/
def getS : SetupM DBState := fun s => (.ok s, s)

/-- Replace the working database. -/
def modifyCur (f : DBCore → DBCore) : SetupM Unit := fun s => (.ok (), ⟨f s.cur, s.committed⟩)

/-- Raise a Python exception. -/
def throwE {α : Type} (e : PyErr) : SetupM α := fun s => (.error e, s)

/-- `frappe.db.commit()`. -/
def dbCommit : SetupM Unit := fun s => (.ok (), ⟨s.cur, s.cur⟩)

/-- Python `try body except Exception: handler`. -/
def tryCatchAll {α : Type} (body : SetupM α) (handler : PyErr → SetupM α) : SetupM α :=
  fun s =>
    match body s with
    | (.ok a, s') => (.ok a, s')
    | (.error e, s') => handler e s'

/-- Python `try body except frappe.DuplicateEntryError: onDup
except Exception: onOther`. -/
def tryCatchDupAll {α : Type} (body : SetupM α) (onDup : SetupM α)
    (onOther : PyErr → SetupM α) : SetupM α :=
  fun s =>
    match body s with
    | (.ok a, s') => (.ok a, s')
    | (.error .duplicateEntry, s') => onDup s'
    | (.error e, s') => onOther e s'

@[simp] theorem pure_apply {α : Type} (a : α) (s : DBState) :
    (pure a : SetupM α) s = (.ok a, s) := rfl

@[simp] theorem bind_apply {α β : Type} (x : SetupM α) (f : α → SetupM β) (s : DBState) :
    (x >>= f) s = match x s with
      | (.ok a, s') => f a s'
      | (.error e, s') => (.error e, s') := rfl

@[simp] theorem getS_apply (s : DBState) : getS s = (.ok s, s) := rfl

@[simp] theorem modifyCur_apply (f : DBCore → DBCore) (s : DBState) :
    modifyCur f s = (.ok (), ⟨f s.cur, s.committed⟩) := rfl

@[simp] theorem throwE_apply {α : Type} (e : PyErr) (s : DBState) :
    (throwE e : SetupM α) s = (.error e, s) := rfl

@[simp] theorem dbCommit_apply (s : DBState) : dbCommit s = (.ok (), ⟨s.cur, s.cur⟩) := rfl

/-- Environment of one run of `setup_pos.main`: injected framework
failures for each attempted insert (by doctype and record name), the
random draws of the two generators, the results of the
`frappe.db.get_value` account lookups used by `create_pos_profile`, and
the server constants used for the credentials output. -/
structure Env where
  insertFail : String → String → Option String
  keyDraw : Nat → Fin 62
  secretDraw : Nat → Fin 62
  writeOffAccount : Option String
  costCenter : Option String
  incomeAccount : Option String
  expenseAccount : Option String
  cashAccount : Option String
  bankAccount : Option String
  serverUrl : String
  siteName : String

/-- A `doc.insert(ignore_permissions=True)` call: the framework raises
`DuplicateEntryError` when a record of this name already exists (the
`dup` check over the working database), the environment may inject any
other framework failure (validation, mandatory fields, ...), and
otherwise the record is added to the working transaction. -/
def insertRecord (env : Env) (doctype name : String) (dup : DBCore → Bool)
    (add : DBCore → DBCore) : SetupM Unit := fun s =>
  if dup s.cur then (.error .duplicateEntry, s)
  else
    match env.insertFail doctype name with
    | some m => (.error (.other m), s)
    | none => (.ok (), ⟨add s.cur, s.committed⟩)

@[simp] theorem insertRecord_apply (env : Env) (doctype name : String)
    (dup : DBCore → Bool) (add : DBCore → DBCore) (s : DBState) :
    insertRecord env doctype name dup add s =
      if dup s.cur then (.error .duplicateEntry, s)
      else
        match env.insertFail doctype name with
        | some m => (.error (.other m), s)
        | none => (.ok (), ⟨add s.cur, s.committed⟩) := rfl

/-- Python truthiness of the `api_key` field (`None` and `""` falsy). -/
def truthy : Option String → Bool
  | none => false
  | some s => !s.isEmpty

/-- `frappe.get_doc("User", email)`: first record with this email,
`DoesNotExistError` when absent. -/
def getUserDoc (email : String) : SetupM UserRec := fun s =>
  match s.cur.users.find? (fun u => u.email == email) with
  | some u => (.ok u, s)
  | none => (.error .doesNotExist, s)

/-- `user.save(ignore_permissions=True)`: write the in-memory doc back
over the stored record(s) with the same email. -/
def updateUser (l : List UserRec) (u : UserRec) : List UserRec :=
  l.map fun x => if x.email = u.email then u else x

/-- The `user.save` call as a database operation. -/
def saveUser (u : UserRec) : SetupM Unit :=
  modifyCur fun db => { db with users := updateUser db.users u }

/-! ## setup_pos.py: entity creation functions -/

/-- `create_company`: return the first existing Company if any
(`frappe.get_all("Company", limit=1)`), otherwise insert
`DEFAULT_COMPANY` and commit; `DuplicateEntryError` is answered with
the default name, any other exception is logged and re-raised. -/
def create_company (env : Env) : SetupM String :=
  tryCatchDupAll
    (do
      let s ← getS
      match s.cur.companies with
      | c :: _ => pure c
      | [] => do
          insertRecord env "Company" DEFAULT_COMPANY
            (fun db => DEFAULT_COMPANY ∈ db.companies)
            (fun db => { db with companies := db.companies ++ [DEFAULT_COMPANY] })
          dbCommit
          pure DEFAULT_COMPANY)
    (pure DEFAULT_COMPANY)
    (fun e => throwE e)

/-- `setup_api_access(user_email)`: keep a truthy `api_key`, generate a
new one otherwise; always generate a fresh `api_secret`; save and
commit.  The catch-all handler returns `(None, None)`. -/
def setup_api_access (env : Env) (user_email : String) :
    SetupM (Option String × Option String) :=
  tryCatchAll
    (do
      let user ← getUserDoc user_email
      let api_key := if truthy user.api_key then user.api_key
                     else some (generate_api_key env.keyDraw)
      let api_secret := some (generate_api_secret env.secretDraw)
      saveUser { user with api_key := api_key, api_secret := api_secret }
      dbCommit
      pure (api_key, api_secret))
    (fun _ => pure (none, none))

/-- One iteration of the `for role_name in required_roles` loop of
`create_pos_user`: create the Role record if absent, then check
`frappe.db.exists("Has Role", ...)` against the stored user record and
append the role to the in-memory doc when missing. -/
def processRole (env : Env) (user : UserRec) (role_name : String) : SetupM UserRec := do
  let s ← getS
  if role_name ∈ s.cur.roles then pure () else
    insertRecord env "Role" role_name
      (fun db => role_name ∈ db.roles)
      (fun db => { db with roles := db.roles ++ [role_name] })
  let s' ← getS
  match s'.cur.users.find? (fun u => u.email == POS_USER_EMAIL) with
  | some urec =>
      if role_name ∈ urec.roles then pure user
      else pure { user with roles := user.roles ++ [role_name] }
  | none => pure { user with roles := user.roles ++ [role_name] }

/-- The whole role loop of `create_pos_user`. -/
def processRoles (env : Env) (user : UserRec) : List String → SetupM UserRec
  | [] => pure user
  | r :: rs => do
      let user' ← processRole env user r
      processRoles env user' rs

/-- The dict returned by `create_pos_user`. -/
structure PosUser where
  email : String
  password : String
  api_key : Option String
  api_secret : Option String
  roles : List String
deriving DecidableEq, Repr

/-- `create_pos_user`: fetch or insert the POS user (the
`frappe.db.set_value(..., "new_password", ...)` write touches no field
this model tracks), run the role loop, save the doc, configure API
access, commit; any exception is logged and re-raised. -/
def create_pos_user (env : Env) : SetupM PosUser :=
  tryCatchAll
    (do
      let s ← getS
      let user ←
        if (s.cur.users.find? (fun u => u.email == POS_USER_EMAIL)).isSome then
          getUserDoc POS_USER_EMAIL
        else do
          insertRecord env "User" POS_USER_EMAIL
            (fun db => (db.users.find? (fun u => u.email == POS_USER_EMAIL)).isSome)
            (fun db => { db with users := db.users ++ [⟨POS_USER_EMAIL, [], none, none⟩] })
          getUserDoc POS_USER_EMAIL
      let user ← processRoles env user requiredRoles
      saveUser user
      let ks ← setup_api_access env POS_USER_EMAIL
      dbCommit
      pure ⟨POS_USER_EMAIL, POS_USER_PASSWORD, ks.1, ks.2, requiredRoles⟩)
    (fun e => throwE e)

/-- `DEFAULT_WAREHOUSE` constant. -/
def DEFAULT_WAREHOUSE : String := "Main Store - MS"

/-- The warehouse name computed by `create_warehouse`:
`f"{DEFAULT_WAREHOUSE.split(' - ')[0]} - {company_name[:2].upper()}"`.
`DEFAULT_WAREHOUSE.split(' - ')[0]` is the part of `"Main Store - MS"`
before the first `" - "` separator, i.e. `"Main Store"`. -/
def warehouseName (company_name : String) : String :=
  "Main Store" ++ " - " ++ (company_name.take 2).toUpper

/-- The root warehouse name `f"All Warehouses - {company_name[:2].upper()}"`. -/
def rootWarehouseName (company_name : String) : String :=
  "All Warehouses - " ++ (company_name.take 2).toUpper

/-- `create_warehouse(company_name)`: return the computed name if such
a warehouse exists; otherwise look up a group warehouse of the company,
create the root warehouse when none is found, insert the store
warehouse and commit.  The framework's automatic record naming is
modelled as the name the script computes and later checks.
`DuplicateEntryError` is answered with the computed name, other
exceptions re-raised. -/
def create_warehouse (env : Env) (company_name : String) : SetupM String :=
  let warehouse_name := warehouseName company_name
  tryCatchDupAll
    (do
      let s ← getS
      if warehouse_name ∈ s.cur.warehouses.map (fun w => w.name) then pure warehouse_name
      else do
        match s.cur.warehouses.find? (fun w => w.company == company_name && w.isGroup) with
        | some _ => pure ()
        | none =>
            let parent_warehouse := rootWarehouseName company_name
            if parent_warehouse ∈ s.cur.warehouses.map (fun w => w.name) then pure ()
            else
              insertRecord env "Warehouse" parent_warehouse
                (fun db => parent_warehouse ∈ db.warehouses.map (fun w => w.name))
                (fun db => { db with warehouses :=
                  db.warehouses ++ [⟨parent_warehouse, company_name, true⟩] })
        insertRecord env "Warehouse" warehouse_name
          (fun db => warehouse_name ∈ db.warehouses.map (fun w => w.name))
          (fun db => { db with warehouses :=
            db.warehouses ++ [⟨warehouse_name, company_name, false⟩] })
        dbCommit
        pure warehouse_name)
    (pure warehouse_name)
    (fun e => throwE e)

/-- `create_price_list`: check-then-insert on `DEFAULT_PRICE_LIST`. -/
def create_price_list (env : Env) : SetupM String :=
  tryCatchDupAll
    (do
      let s ← getS
      if DEFAULT_PRICE_LIST ∈ s.cur.priceLists then pure DEFAULT_PRICE_LIST
      else do
        insertRecord env "Price List" DEFAULT_PRICE_LIST
          (fun db => DEFAULT_PRICE_LIST ∈ db.priceLists)
          (fun db => { db with priceLists := db.priceLists ++ [DEFAULT_PRICE_LIST] })
        dbCommit
        pure DEFAULT_PRICE_LIST)
    (pure DEFAULT_PRICE_LIST)
    (fun e => throwE e)

/-- `create_customer`: check-then-insert on `DEFAULT_CUSTOMER`. -/
def create_customer (env : Env) : SetupM String :=
  tryCatchDupAll
    (do
      let s ← getS
      if DEFAULT_CUSTOMER ∈ s.cur.customers then pure DEFAULT_CUSTOMER
      else do
        insertRecord env "Customer" DEFAULT_CUSTOMER
          (fun db => DEFAULT_CUSTOMER ∈ db.customers)
          (fun db => { db with customers := db.customers ++ [DEFAULT_CUSTOMER] })
        dbCommit
        pure DEFAULT_CUSTOMER)
    (pure DEFAULT_CUSTOMER)
    (fun e => throwE e)

/-- `create_pos_profile`: check-then-insert on `DEFAULT_POS_PROFILE`.
The account lookups come from the environment; they feed the inserted
payload only.  `DuplicateEntryError` is answered with the default name;
every other exception is swallowed (`# Ne pas lever l'erreur pour
continuer le setup`) and `None` is returned. -/
def create_pos_profile (env : Env)
    (_company_name _warehouse_name _price_list_name : String) :
    SetupM (Option String) :=
  tryCatchDupAll
    (do
      let s ← getS
      if DEFAULT_POS_PROFILE ∈ s.cur.posProfiles then pure (some DEFAULT_POS_PROFILE)
      else do
        let _write_off_account := env.writeOffAccount
        let _write_off_cost_center := env.costCenter
        let _income_account := env.incomeAccount
        let _expense_account := env.expenseAccount
        let _cash_account :=
          match env.cashAccount with
          | some c => some c
          | none => env.bankAccount
        insertRecord env "POS Profile" DEFAULT_POS_PROFILE
          (fun db => DEFAULT_POS_PROFILE ∈ db.posProfiles)
          (fun db => { db with posProfiles := db.posProfiles ++ [DEFAULT_POS_PROFILE] })
        dbCommit
        pure (some DEFAULT_POS_PROFILE))
    (pure (some DEFAULT_POS_PROFILE))
    (fun _ => pure none)

/-- `INITIAL_STOCK_QTY` constant. -/
def INITIAL_STOCK_QTY : Int := 100

/-- `create_stock_entry`: insert-and-submit of a Material Receipt; its
own catch-all handler only logs, so the function never raises. -/
def create_stock_entry (env : Env) (item_code warehouse : String)
    (_qty : Int) (_company : String) : SetupM Unit :=
  tryCatchAll
    (insertRecord env "Stock Entry" item_code (fun _ => false)
      (fun db => { db with stockEntries := db.stockEntries ++ [(item_code, warehouse)] }))
    (fun _ => pure ())

/-- One entry of the `created_items` list of `create_sample_items`. -/
structure CreatedItem where
  item_code : String
  barcode : String
  rate : Option Int
  existsFlag : Bool
deriving DecidableEq, Repr

/-- One iteration of the item loop of `create_sample_items`: existing
items yield an `exists` entry; new items are inserted together with
their Item Price and initial stock; `DuplicateEntryError` yields an
`exists` entry, any other exception only logs (no entry). -/
def processItem (env : Env) (company_name warehouse_name price_list_name : String)
    (it : SampleItem) : SetupM (List CreatedItem) :=
  tryCatchDupAll
    (do
      let s ← getS
      if it.item_code ∈ s.cur.items then
        pure [⟨it.item_code, it.barcode, none, true⟩]
      else do
        insertRecord env "Item" it.item_code
          (fun db => it.item_code ∈ db.items)
          (fun db => { db with items := db.items ++ [it.item_code] })
        insertRecord env "Item Price" it.item_code (fun _ => false)
          (fun db => { db with itemPrices := db.itemPrices ++ [(it.item_code, price_list_name)] })
        tryCatchAll
          (create_stock_entry env it.item_code warehouse_name INITIAL_STOCK_QTY company_name)
          (fun _ => pure ())
        pure [⟨it.item_code, it.barcode, some it.rate, false⟩])
    (pure [⟨it.item_code, it.barcode, none, true⟩])
    (fun _ => pure [])

/-- The whole item loop of `create_sample_items`. -/
def processItems (env : Env) (company_name warehouse_name price_list_name : String) :
    List SampleItem → SetupM (List CreatedItem)
  | [] => pure []
  | it :: rest => do
      let r ← processItem env company_name warehouse_name price_list_name it
      let rs ← processItems env company_name warehouse_name price_list_name rest
      pure (r ++ rs)

/-- `create_sample_items`: ensure the `Products` item group (failure
silently ignored), run the item loop, commit. -/
def create_sample_items (env : Env) (company_name warehouse_name price_list_name : String) :
    SetupM (List CreatedItem) := do
  let s ← getS
  if "Products" ∈ s.cur.itemGroups then pure () else
    tryCatchAll
      (insertRecord env "Item Group" "Products"
        (fun db => "Products" ∈ db.itemGroups)
        (fun db => { db with itemGroups := db.itemGroups ++ ["Products"] }))
      (fun _ => pure ())
  let created ← processItems env company_name warehouse_name price_list_name SAMPLE_ITEMS
  dbCommit
  pure created

/-- The credentials dictionary assembled by `main` and written to
`pos_credentials.json`. -/
structure Credentials where
  pos_user : PosUser
  server_url : String
  site_name : String
  pos_profile_name : Option String
  warehouse : String
  price_list : String
  company : String
  default_customer : String
  sample_items : List CreatedItem
deriving DecidableEq, Repr

/-- `save_credentials`: writes `pos_credentials.json` (or prints the
data as fallback); it touches no database state and its catch-all
handler never lets an exception escape. -/
def save_credentials (_credentials_data : Credentials) : SetupM Unit := pure ()

/-- The `try` body of `main`: the eight numbered steps in source
order. -/
def main_body (env : Env) : SetupM Credentials := do
  let company_name ← create_company env
  let pos_user ← create_pos_user env
  let warehouse_name ← create_warehouse env company_name
  let price_list_name ← create_price_list env
  let customer_name ← create_customer env
  let pos_profile_name ← create_pos_profile env company_name warehouse_name price_list_name
  let sample_items ← create_sample_items env company_name warehouse_name price_list_name
  let credentials : Credentials :=
    ⟨pos_user, env.serverUrl, env.siteName, pos_profile_name,
     warehouse_name, price_list_name, company_name, customer_name, sample_items⟩
  save_credentials credentials
  pure credentials

/-- `main`: on any exception of the body, log, `frappe.db.rollback()`,
and re-raise the same exception. -/
def main (env : Env) : SetupM Credentials := fun s =>
  match main_body env s with
  | (.ok c, s') => (.ok c, s')
  | (.error e, s') => (.error e, ⟨s'.committed, s'.committed⟩)

/-! ## Helper lemmas: cors_config.py -/

/-- The config after the `allow_cors` / `ignore_csrf` assignments. -/
def corsBase (origins : JValue) (config : JDict) : JDict :=
  alset (alset config "allow_cors" origins) "ignore_csrf" (JValue.num 1)

theorem alget_cors2_api (origins : JValue) (config : JDict) :
    alget (alset (alset config "allow_cors" origins) "ignore_csrf" (JValue.num 1))
        "api_settings" = alget config "api_settings" := by
  rw [alget_alset_ne _ _ _ _ (by decide), alget_alset_ne _ _ _ _ (by decide)]

theorem alget_corsBase_other (origins : JValue) (config : JDict) (k : String)
    (h1 : k ≠ "allow_cors") (h2 : k ≠ "ignore_csrf") :
    alget (corsBase origins config) k = alget config k := by
  unfold corsBase
  rw [alget_alset_ne _ _ _ _ h2, alget_alset_ne _ _ _ _ h1]

theorem enable_cors_try_eq (origins : JValue) (env : FileEnv) :
    enable_cors_try origins env =
      if env.fileExists then
        if env.readOk then
          match alget env.config "api_settings" with
          | some (JValue.obj d) =>
              if env.writeOk then
                .ok (some (alset (corsBase origins env.config) "api_settings"
                  (JValue.obj (alset (alset d "enable_api" (JValue.num 1))
                    "allow_api_key_authentication" (JValue.num 1)))), true)
              else .error "json.dump failed"
          | none =>
              if env.writeOk then
                .ok (some (alset (alset (corsBase origins env.config) "api_settings"
                  (JValue.obj [])) "api_settings"
                  (JValue.obj (alset (alset [] "enable_api" (JValue.num 1))
                    "allow_api_key_authentication" (JValue.num 1)))), true)
              else .error "json.dump failed"
          | some _ => .error "TypeError: item assignment on non-dict api_settings"
        else .error "json.load failed"
      else .ok (none, false) := by
  unfold enable_cors_try
  by_cases hfe : env.fileExists
  · by_cases hro : env.readOk
    · simp only [hfe, hro, if_true, Bool.not_true, Bool.false_eq_true, if_false, corsBase]
      rcases hv : alget env.config "api_settings" with _ | v
      · have hc : alcontains
            (alset (alset env.config "allow_cors" origins) "ignore_csrf" (JValue.num 1))
            "api_settings" = false := by
          unfold alcontains
          rw [alget_cors2_api, hv]
          rfl
        simp only [hc, Bool.false_eq_true, if_false]
        rw [alget_alset_self]
      · have hc : alcontains
            (alset (alset env.config "allow_cors" origins) "ignore_csrf" (JValue.num 1))
            "api_settings" = true := by
          unfold alcontains
          rw [alget_cors2_api, hv]
          rfl
        simp only [hc, if_true]
        rw [alget_cors2_api, hv]
        rcases v with _ | b | n | sv | xs | d <;> rfl
    · simp [hfe, hro]
  · simp [hfe]

theorem enable_cors_snd (origins : JValue) (env : FileEnv) :
    (enable_cors origins env).2 =
      (env.fileExists && env.readOk && env.writeOk && apiSettingsOk env.config) := by
  unfold enable_cors apiSettingsOk
  rw [enable_cors_try_eq]
  by_cases hfe : env.fileExists <;> by_cases hro : env.readOk <;>
    by_cases hwo : env.writeOk <;>
    rcases hv : alget env.config "api_settings" with _ | _ | b | n | sv | xs | d <;>
    simp [hfe, hro, hwo, hv]

theorem enable_cors_frame (origins : JValue) (env : FileEnv) (k : String) (w : JDict)
    (h1 : k ≠ "allow_cors") (h2 : k ≠ "ignore_csrf") (h3 : k ≠ "api_settings")
    (h : (enable_cors origins env).1 = some w) :
    alget w k = alget env.config k := by
  unfold enable_cors at h
  rw [enable_cors_try_eq] at h
  by_cases hfe : env.fileExists <;> by_cases hro : env.readOk <;>
    by_cases hwo : env.writeOk <;>
    rcases hv : alget env.config "api_settings" with _ | _ | b | n | sv | xs | d <;>
    simp only [hfe, hro, hwo, hv, if_true, Bool.false_eq_true, if_false,
      Option.some.injEq, reduceCtorEq] at h
  all_goals first
    | (rw [← h, alget_alset_ne _ _ _ _ h3, alget_alset_ne _ _ _ _ h3,
        alget_corsBase_other _ _ _ h1 h2])
    | (rw [← h, alget_alset_ne _ _ _ _ h3, alget_corsBase_other _ _ _ h1 h2])

theorem configure_api_settings_eq (rate_limit rate_limit_window : Int) (env : FileEnv) :
    configure_api_settings rate_limit rate_limit_window env =
      if env.fileExists then
        if env.readOk then
          if env.writeOk then
            (some (alset env.config "api_settings"
              (api_settings_obj rate_limit rate_limit_window)), true)
          else (none, false)
        else (none, false)
      else (none, true) := by
  unfold configure_api_settings configure_api_settings_try
  by_cases hfe : env.fileExists <;> by_cases hro : env.readOk <;>
    by_cases hwo : env.writeOk <;> simp [hfe, hro, hwo]

theorem disable_csrf_eq (env : FileEnv) :
    disable_csrf env =
      if env.fileExists then
        if env.readOk then
          if env.writeOk then (some (alset env.config "ignore_csrf" (JValue.num 1)), true)
          else (none, false)
        else (none, false)
      else (none, false) := by
  unfold disable_csrf disable_csrf_try
  by_cases hfe : env.fileExists <;> by_cases hro : env.readOk <;>
    by_cases hwo : env.writeOk <;> simp [hfe, hro, hwo]

/-! ## Claim theorems: cors_config.py -/

/-- C3: each of `enable_cors`, `configure_api_settings` and
`disable_csrf`, on any initial JSON object, writes back (when it writes
at all) a JSON object in which every top-level key other than
`allow_cors`, `ignore_csrf` and `api_settings` maps to its previous,
unchanged value. -/
theorem C3_config_mutation_preserves_other_keys
    (env : FileEnv) (origins : JValue) (rate_limit rate_limit_window : Int) (k : String)
    (h1 : k ≠ "allow_cors") (h2 : k ≠ "ignore_csrf") (h3 : k ≠ "api_settings") :
    ((enable_cors origins env).1.elim True fun w => alget w k = alget env.config k) ∧
    ((configure_api_settings rate_limit rate_limit_window env).1.elim True
      fun w => alget w k = alget env.config k) ∧
    ((disable_csrf env).1.elim True fun w => alget w k = alget env.config k) := by
  refine ⟨?_, ?_, ?_⟩
  · rcases hw : (enable_cors origins env).1 with _ | w
    · simp
    · simpa using enable_cors_frame origins env k w h1 h2 h3 hw
  · rw [configure_api_settings_eq]
    by_cases hfe : env.fileExists <;> by_cases hro : env.readOk <;>
      by_cases hwo : env.writeOk <;> simp [hfe, hro, hwo, alget_alset_ne _ _ _ _ h3]
  · rw [disable_csrf_eq]
    by_cases hfe : env.fileExists <;> by_cases hro : env.readOk <;>
      by_cases hwo : env.writeOk <;> simp [hfe, hro, hwo, alget_alset_ne _ _ _ _ h2]

/-- Witness for C3 at a concrete config `{"foo": 7, "allow_cors": null}`:
all three functions write back a file where `foo` still maps to `7`. -/
theorem C3_config_mutation_preserves_other_keys_witness :
    ((enable_cors (JValue.str "*")
        ⟨true, true, true, [("foo", JValue.num 7), ("allow_cors", JValue.null)]⟩).1.elim True
      fun w => alget w "foo" =
        alget [("foo", JValue.num 7), ("allow_cors", JValue.null)] "foo") ∧
    ((configure_api_settings 1000 3600
        ⟨true, true, true, [("foo", JValue.num 7), ("allow_cors", JValue.null)]⟩).1.elim True
      fun w => alget w "foo" =
        alget [("foo", JValue.num 7), ("allow_cors", JValue.null)] "foo") ∧
    ((disable_csrf
        ⟨true, true, true, [("foo", JValue.num 7), ("allow_cors", JValue.null)]⟩).1.elim True
      fun w => alget w "foo" =
        alget [("foo", JValue.num 7), ("allow_cors", JValue.null)] "foo") :=
  C3_config_mutation_preserves_other_keys
    ⟨true, true, true, [("foo", JValue.num 7), ("allow_cors", JValue.null)]⟩
    (JValue.str "*") 1000 3600 "foo"
    (by decide) (by decide) (by decide)

/-- C5: on an existing, readable and writable `site_config.json`,
`configure_api_settings(rate_limit, rate_limit_window)` writes a config
whose `api_settings` key maps to exactly
`{enable_api: 1, allow_api_key_authentication: 1, rate_limit,
rate_limit_window}`, replacing any previous contents, and returns
`True`. -/
theorem C5_configure_api_settings_result
    (rate_limit rate_limit_window : Int) (env : FileEnv)
    (hfe : env.fileExists = true) (hro : env.readOk = true) (hwo : env.writeOk = true) :
    ∃ w, configure_api_settings rate_limit rate_limit_window env = (some w, true) ∧
      alget w "api_settings" = some (JValue.obj
        [("enable_api", JValue.num 1),
         ("allow_api_key_authentication", JValue.num 1),
         ("rate_limit", JValue.num rate_limit),
         ("rate_limit_window", JValue.num rate_limit_window)]) := by
  refine ⟨alset env.config "api_settings" (api_settings_obj rate_limit rate_limit_window),
    ?_, ?_⟩
  · rw [configure_api_settings_eq]
    simp [hfe, hro, hwo]
  · rw [alget_alset_self]
    rfl

/-- Witness for C5: concrete run on `{"api_settings": "old"}` with
rate limit `1000` and window `3600`. -/
theorem C5_configure_api_settings_result_witness :
    ∃ w, configure_api_settings 1000 3600
        ⟨true, true, true, [("api_settings", JValue.str "old")]⟩ = (some w, true) ∧
      alget w "api_settings" = some (JValue.obj
        [("enable_api", JValue.num 1),
         ("allow_api_key_authentication", JValue.num 1),
         ("rate_limit", JValue.num 1000),
         ("rate_limit_window", JValue.num 3600)]) :=
  C5_configure_api_settings_result 1000 3600
    ⟨true, true, true, [("api_settings", JValue.str "old")]⟩ rfl rfl rfl

/-- C6: `get_cors_headers()` is exactly the five static headers, and
`add_cors_headers(response)` sets exactly these five headers on the
response (each of the five is set to its static value, every other
header is untouched) and returns the same five-header mapping. -/
theorem C6_static_cors_headers :
    get_cors_headers =
      [("Access-Control-Allow-Origin", "*"),
       ("Access-Control-Allow-Methods", "GET, POST, PUT, DELETE, OPTIONS, PATCH"),
       ("Access-Control-Allow-Headers",
         "Content-Type, Authorization, X-Frappe-CSRF-Token, X-Frappe-Site-Name"),
       ("Access-Control-Allow-Credentials", "true"),
       ("Access-Control-Max-Age", "86400")] ∧
    (∀ r : List (String × String), ∃ r',
      add_cors_headers (some r) = (some r', CORS_HEADERS) ∧
      (∀ kv ∈ CORS_HEADERS, alget r' kv.1 = some kv.2) ∧
      (∀ k : String, k ∉ CORS_HEADERS.map Prod.fst → alget r' k = alget r k)) ∧
    add_cors_headers none = (none, CORS_HEADERS) := by
  refine ⟨rfl, ?_, rfl⟩
  intro r
  refine ⟨_, rfl, ?_, ?_⟩
  · intro kv hkv
    fin_cases hkv
    · simp only [CORS_HEADERS, List.foldl]
      rw [alget_alset_ne _ _ _ _ (by decide), alget_alset_ne _ _ _ _ (by decide),
        alget_alset_ne _ _ _ _ (by decide), alget_alset_ne _ _ _ _ (by decide),
        alget_alset_self]
    · simp only [CORS_HEADERS, List.foldl]
      rw [alget_alset_ne _ _ _ _ (by decide), alget_alset_ne _ _ _ _ (by decide),
        alget_alset_ne _ _ _ _ (by decide), alget_alset_self]
    · simp only [CORS_HEADERS, List.foldl]
      rw [alget_alset_ne _ _ _ _ (by decide), alget_alset_ne _ _ _ _ (by decide),
        alget_alset_self]
    · simp only [CORS_HEADERS, List.foldl]
      rw [alget_alset_ne _ _ _ _ (by decide), alget_alset_self]
    · simp only [CORS_HEADERS, List.foldl]
      rw [alget_alset_self]
  · intro k hk
    simp only [CORS_HEADERS, List.map, List.mem_cons, List.not_mem_nil, or_false,
      not_or] at hk
    obtain ⟨n1, n2, n3, n4, n5⟩ := hk
    simp only [CORS_HEADERS, List.foldl]
    rw [alget_alset_ne _ _ _ _ n5, alget_alset_ne _ _ _ _ n4,
      alget_alset_ne _ _ _ _ n3, alget_alset_ne _ _ _ _ n2,
      alget_alset_ne _ _ _ _ n1]

/-- C7: `enable_cors` never raises; it returns `True` exactly when the
config file exists and was read, mutated (the nested `api_settings`
item assignment included) and written back successfully, and `False` in
every other case. -/
theorem C7_enable_cors_error_handling (origins : JValue) (env : FileEnv) :
    ((enable_cors origins env).2 = true ↔
      env.fileExists = true ∧ env.readOk = true ∧ env.writeOk = true ∧
      apiSettingsOk env.config = true) ∧
    ((enable_cors origins env).2 = false ↔
      ¬(env.fileExists = true ∧ env.readOk = true ∧ env.writeOk = true ∧
        apiSettingsOk env.config = true)) := by
  constructor
  · rw [enable_cors_snd]
    simp [Bool.and_eq_true, and_assoc]
  · rw [enable_cors_snd]
    rcases h1 : env.fileExists <;> rcases h2 : env.readOk <;>
      rcases h3 : env.writeOk <;> rcases h4 : apiSettingsOk env.config <;> simp

/-- Witness for C6 at the concrete response `{"X-Other": "1"}`: the
five headers are set and the unrelated header is untouched. -/
theorem C6_static_cors_headers_witness :
    ∃ r', add_cors_headers (some [("X-Other", "1")]) = (some r', CORS_HEADERS) ∧
      alget r' "Access-Control-Max-Age" = some "86400" ∧
      alget r' "X-Other" = some "1" := by
  obtain ⟨r', heq, hset, hframe⟩ :=
    C6_static_cors_headers.2.1 [("X-Other", "1")]
  refine ⟨r', heq, ?_, ?_⟩
  · exact hset ("Access-Control-Max-Age", "86400") (by simp [CORS_HEADERS])
  · rw [hframe "X-Other" (by decide)]
    rfl

/-! ## Helper definitions for the setup_pos.py claims -/

/-- The company name `main` works with: the first existing Company,
`DEFAULT_COMPANY` when none exists yet. -/
def company_of (db : DBCore) : String := db.companies.headD DEFAULT_COMPANY

/-- All record names of the database, used to state that a run creates
no records. -/
def recordNames (db : DBCore) :=
  (db.companies, db.users.map (fun u => u.email), db.roles, db.warehouses,
   db.priceLists, db.posProfiles, db.customers, db.items, db.itemGroups,
   db.itemPrices, db.stockEntries)

/-- State after a fully successful run: every seeded entity exists. -/
def Seeded (db : DBCore) : Prop :=
  db.companies ≠ [] ∧
  (∃ u, db.users.find? (fun x => x.email == POS_USER_EMAIL) = some u ∧
    ∀ r ∈ requiredRoles, r ∈ u.roles) ∧
  (∀ r ∈ requiredRoles, r ∈ db.roles) ∧
  warehouseName (company_of db) ∈ db.warehouses.map (fun w => w.name) ∧
  DEFAULT_PRICE_LIST ∈ db.priceLists ∧
  DEFAULT_POS_PROFILE ∈ db.posProfiles ∧
  DEFAULT_CUSTOMER ∈ db.customers ∧
  (∀ it ∈ SAMPLE_ITEMS, it.item_code ∈ db.items) ∧
  "Products" ∈ db.itemGroups

/-- A constant random draw, for concrete witnesses. -/
def zeroDraw : Nat → Fin 62 := fun _ => 0

/-- Concrete environment in which every framework insert succeeds. -/
def envNoFail : Env :=
  ⟨fun _ _ => none, zeroDraw, zeroDraw, none, none, none, none, none, none,
   "http://localhost", "site1"⟩

/-- Concrete environment in which every framework insert fails. -/
def envAllFail : Env :=
  ⟨fun _ _ => some "ValidationError", zeroDraw, zeroDraw, none, none, none, none,
   none, none, "http://localhost", "site1"⟩

/-- The empty database. -/
def emptyDB : DBCore := ⟨[], [], [], [], [], [], [], [], [], [], []⟩

/-! ## Helper lemmas: create_company -/

theorem create_company_existing (env : Env) (s : DBState) (c : String) (cs : List String)
    (h : s.cur.companies = c :: cs) : create_company env s = (.ok c, s) := by
  unfold create_company tryCatchDupAll
  simp [h]

theorem create_company_empty (env : Env) (s : DBState)
    (h : s.cur.companies = []) (hf : env.insertFail "Company" DEFAULT_COMPANY = none) :
    create_company env s =
      (.ok DEFAULT_COMPANY,
       ⟨{ s.cur with companies := [DEFAULT_COMPANY] },
        { s.cur with companies := [DEFAULT_COMPANY] }⟩) := by
  unfold create_company tryCatchDupAll
  simp [h, hf]

/-! ## Helper lemmas: users and setup_api_access -/

theorem updateUser_map_email (l : List UserRec) (u : UserRec) :
    (updateUser l u).map (fun x => x.email) = l.map (fun x => x.email) := by
  induction l with
  | nil => rfl
  | cons x t ih =>
      by_cases hx : x.email = u.email
      · simp [updateUser, hx] at ih ⊢
        exact ih
      · simp [updateUser, hx] at ih ⊢
        exact ih

theorem find?_updateUser (l : List UserRec) (email : String) (u' : UserRec)
    (hmail : u'.email = email)
    (hsome : (l.find? (fun x => x.email == email)).isSome = true) :
    (updateUser l u').find? (fun x => x.email == email) = some u' := by
  induction l with
  | nil => simp [List.find?] at hsome
  | cons x t ih =>
      by_cases hx : x.email = email
      · have hxu : x.email = u'.email := by rw [hx, hmail]
        simp [updateUser, hxu, List.find?, hmail]
      · have hb : (x.email == email) = false := by simp [hx]
        have hxu : ¬x.email = u'.email := by rw [hmail]; exact hx
        simp only [List.find?, hb] at hsome
        simp only [updateUser, List.map_cons, if_neg hxu, List.find?, hb]
        exact ih hsome

theorem find?_email_eq {l : List UserRec} {email : String} {u : UserRec}
    (h : l.find? (fun x => x.email == email) = some u) : u.email = email := by
  have := List.find?_some h
  simpa using this

theorem generate_api_key_not_empty (draw : Nat → Fin 62) :
    (generate_api_key draw).isEmpty = false := by
  have hlen : (generate_api_key draw).length = 20 := by
    show ((List.range 20).map fun i => secretsChoice (draw i)).length = 20
    simp
  rcases he : (generate_api_key draw).isEmpty with _ | _
  · rfl
  · exfalso
    rw [String.isEmpty_iff] at he
    rw [he] at hlen
    simp at hlen

/-- The user record after `setup_api_access` ran on `u`: the key kept
when truthy and regenerated otherwise, the secret always regenerated. -/
def apiUpdatedUser (env : Env) (u : UserRec) : UserRec :=
  { u with
    api_key := if truthy u.api_key then u.api_key
               else some (generate_api_key env.keyDraw),
    api_secret := some (generate_api_secret env.secretDraw) }

/-- The database state after `setup_api_access` saved and committed. -/
def apiUpdatedState (env : Env) (s : DBState) (u : UserRec) : DBState :=
  ⟨{ s.cur with users := updateUser s.cur.users (apiUpdatedUser env u) },
   { s.cur with users := updateUser s.cur.users (apiUpdatedUser env u) }⟩

theorem setup_api_access_found (env : Env) (email : String) (s : DBState) (u : UserRec)
    (h : s.cur.users.find? (fun x => x.email == email) = some u) :
    setup_api_access env email s =
      (.ok ((apiUpdatedUser env u).api_key, (apiUpdatedUser env u).api_secret),
       apiUpdatedState env s u) := by
  unfold setup_api_access tryCatchAll getUserDoc saveUser
  simp [h, apiUpdatedUser, apiUpdatedState]

/-! ## Helper lemmas: warehouses, price list, customer, POS profile -/

theorem warehouseName_eq (c : String) :
    warehouseName c = "Main Store - " ++ (c.take 2).toUpper := by
  unfold warehouseName
  have h : "Main Store" ++ " - " = "Main Store - " := by decide
  rw [h]

theorem warehouseName_ne_root (c : String) : warehouseName c ≠ rootWarehouseName c := by
  intro h
  rw [warehouseName_eq] at h
  unfold rootWarehouseName at h
  have hl := congrArg String.length h
  rw [String.length_append, String.length_append] at hl
  have h1 : String.length "Main Store - " = 13 := by decide
  have h2 : String.length "All Warehouses - " = 17 := by decide
  rw [h1, h2] at hl
  omega

theorem create_warehouse_existing (env : Env) (c : String) (s : DBState)
    (h : warehouseName c ∈ s.cur.warehouses.map (fun w => w.name)) :
    create_warehouse env c s = (.ok (warehouseName c), s) := by
  simp only [List.mem_map] at h
  unfold create_warehouse tryCatchDupAll
  simp [h]

theorem create_warehouse_new (env : Env) (c : String) (s : DBState)
    (h : warehouseName c ∉ s.cur.warehouses.map (fun w => w.name))
    (hf1 : env.insertFail "Warehouse" (rootWarehouseName c) = none)
    (hf2 : env.insertFail "Warehouse" (warehouseName c) = none) :
    ∃ ws', create_warehouse env c s =
        (.ok (warehouseName c),
         ⟨{ s.cur with warehouses := ws' }, { s.cur with warehouses := ws' }⟩) ∧
      warehouseName c ∈ ws'.map (fun w => w.name) ∧
      (∀ x ∈ s.cur.warehouses, x ∈ ws') := by
  simp only [List.mem_map] at h
  rcases hg : s.cur.warehouses.find? (fun w => w.company == c && w.isGroup) with _ | g
  · by_cases hr : ∃ a ∈ s.cur.warehouses, a.name = rootWarehouseName c
    · refine ⟨s.cur.warehouses ++ [⟨warehouseName c, c, false⟩], ?_, by simp, ?_⟩
      · unfold create_warehouse tryCatchDupAll
        simp [h, hg, hr, hf2]
      · intro x hx
        simp [hx]
    · refine ⟨s.cur.warehouses ++ [⟨rootWarehouseName c, c, true⟩]
        ++ [⟨warehouseName c, c, false⟩], ?_, by simp, ?_⟩
      · have hnr : rootWarehouseName c ≠ warehouseName c :=
          Ne.symm (warehouseName_ne_root c)
        have hc : decide (∃ a ∈ s.cur.warehouses ++
            [(⟨rootWarehouseName c, c, true⟩ : WarehouseRec)],
            a.name = warehouseName c) = false := by
          rw [decide_eq_false_iff_not]
          rintro ⟨a, ha, hname⟩
          rcases List.mem_append.mp ha with ha | ha
          · exact h ⟨a, ha, hname⟩
          · rw [List.mem_singleton.mp ha] at hname
            exact hnr hname
        unfold create_warehouse tryCatchDupAll
        simp [h, hg, hr, hc, hf1, hf2, List.append_assoc]
      · intro x hx
        simp [hx]
  · refine ⟨s.cur.warehouses ++ [⟨warehouseName c, c, false⟩], ?_, by simp, ?_⟩
    · unfold create_warehouse tryCatchDupAll
      simp [h, hg, hf2]
    · intro x hx
      simp [hx]

theorem create_price_list_existing (env : Env) (s : DBState)
    (h : DEFAULT_PRICE_LIST ∈ s.cur.priceLists) :
    create_price_list env s = (.ok DEFAULT_PRICE_LIST, s) := by
  unfold create_price_list tryCatchDupAll
  simp [h]

theorem create_price_list_new (env : Env) (s : DBState)
    (h : DEFAULT_PRICE_LIST ∉ s.cur.priceLists)
    (hf : env.insertFail "Price List" DEFAULT_PRICE_LIST = none) :
    create_price_list env s =
      (.ok DEFAULT_PRICE_LIST,
       ⟨{ s.cur with priceLists := s.cur.priceLists ++ [DEFAULT_PRICE_LIST] },
        { s.cur with priceLists := s.cur.priceLists ++ [DEFAULT_PRICE_LIST] }⟩) := by
  unfold create_price_list tryCatchDupAll
  simp [h, hf]

theorem create_customer_existing (env : Env) (s : DBState)
    (h : DEFAULT_CUSTOMER ∈ s.cur.customers) :
    create_customer env s = (.ok DEFAULT_CUSTOMER, s) := by
  unfold create_customer tryCatchDupAll
  simp [h]

theorem create_customer_new (env : Env) (s : DBState)
    (h : DEFAULT_CUSTOMER ∉ s.cur.customers)
    (hf : env.insertFail "Customer" DEFAULT_CUSTOMER = none) :
    create_customer env s =
      (.ok DEFAULT_CUSTOMER,
       ⟨{ s.cur with customers := s.cur.customers ++ [DEFAULT_CUSTOMER] },
        { s.cur with customers := s.cur.customers ++ [DEFAULT_CUSTOMER] }⟩) := by
  unfold create_customer tryCatchDupAll
  simp [h, hf]

theorem create_customer_fail (env : Env) (s : DBState) (m : String)
    (h : DEFAULT_CUSTOMER ∉ s.cur.customers)
    (hf : env.insertFail "Customer" DEFAULT_CUSTOMER = some m) :
    create_customer env s = (.error (.other m), s) := by
  unfold create_customer tryCatchDupAll
  simp [h, hf]

theorem create_pos_profile_existing (env : Env) (c w p : String) (s : DBState)
    (h : DEFAULT_POS_PROFILE ∈ s.cur.posProfiles) :
    create_pos_profile env c w p s = (.ok (some DEFAULT_POS_PROFILE), s) := by
  unfold create_pos_profile tryCatchDupAll
  simp [h]

theorem create_pos_profile_new (env : Env) (c w p : String) (s : DBState)
    (h : DEFAULT_POS_PROFILE ∉ s.cur.posProfiles)
    (hf : env.insertFail "POS Profile" DEFAULT_POS_PROFILE = none) :
    create_pos_profile env c w p s =
      (.ok (some DEFAULT_POS_PROFILE),
       ⟨{ s.cur with posProfiles := s.cur.posProfiles ++ [DEFAULT_POS_PROFILE] },
        { s.cur with posProfiles := s.cur.posProfiles ++ [DEFAULT_POS_PROFILE] }⟩) := by
  unfold create_pos_profile tryCatchDupAll
  simp [h, hf]

theorem create_pos_profile_fail (env : Env) (c w p : String) (s : DBState) (m : String)
    (h : DEFAULT_POS_PROFILE ∉ s.cur.posProfiles)
    (hf : env.insertFail "POS Profile" DEFAULT_POS_PROFILE = some m) :
    create_pos_profile env c w p s = (.ok none, s) := by
  unfold create_pos_profile tryCatchDupAll
  simp [h, hf]

theorem create_pos_profile_total (env : Env) (c w p : String) (s : DBState) :
    ∃ r s', create_pos_profile env c w p s = (.ok r, s') := by
  by_cases h : DEFAULT_POS_PROFILE ∈ s.cur.posProfiles
  · exact ⟨_, _, create_pos_profile_existing env c w p s h⟩
  · rcases hf : env.insertFail "POS Profile" DEFAULT_POS_PROFILE with _ | m
    · exact ⟨_, _, create_pos_profile_new env c w p s h hf⟩
    · exact ⟨_, _, create_pos_profile_fail env c w p s m h hf⟩

/-! ## Claim theorems: C10 and C8 -/

/-- C10: whenever at least one Company exists, `create_company` returns
the name of the first existing Company — whatever that name is — and
leaves the database untouched (no insert is issued); the `My Company`
insert happens only on an empty Company table. -/
theorem C10_create_company_reuses_first (env : Env) (s : DBState) (c : String)
    (cs : List String) (h : s.cur.companies = c :: cs) :
    create_company env s = (.ok c, s) :=
  create_company_existing env s c cs h

/-- Witness for C10: with one Company `Acme Corp` (a name different
from `My Company`) and an environment in which any insert would fail,
`create_company` still succeeds and returns `Acme Corp`. -/
theorem C10_create_company_reuses_first_witness :
    create_company envAllFail
        ⟨{ emptyDB with companies := ["Acme Corp"] },
         { emptyDB with companies := ["Acme Corp"] }⟩ =
      (.ok "Acme Corp",
       ⟨{ emptyDB with companies := ["Acme Corp"] },
        { emptyDB with companies := ["Acme Corp"] }⟩) :=
  C10_create_company_reuses_first envAllFail
    ⟨{ emptyDB with companies := ["Acme Corp"] },
     { emptyDB with companies := ["Acme Corp"] }⟩ "Acme Corp" [] rfl

/-- C8: for a stored user, `setup_api_access` keeps a truthy `api_key`
(and generates one only otherwise) but replaces `api_secret` with the
freshly generated secret on every call; across two consecutive calls
the key is unchanged while the stored secret is the second call's fresh
secret. -/
theorem C8_setup_api_access_key_stable (env env' : Env) (email : String) (s : DBState)
    (u : UserRec) (hu : s.cur.users.find? (fun x => x.email == email) = some u) :
    ∃ k s1 s2,
      setup_api_access env email s =
        (.ok (some k, some (generate_api_secret env.secretDraw)), s1) ∧
      (truthy u.api_key = true → some k = u.api_key) ∧
      (truthy u.api_key = false → k = generate_api_key env.keyDraw) ∧
      s1.cur.users.find? (fun x => x.email == email) =
        some { u with api_key := some k,
                      api_secret := some (generate_api_secret env.secretDraw) } ∧
      setup_api_access env' email s1 =
        (.ok (some k, some (generate_api_secret env'.secretDraw)), s2) ∧
      s2.cur.users.find? (fun x => x.email == email) =
        some { u with api_key := some k,
                      api_secret := some (generate_api_secret env'.secretDraw) } := by
  have hmail : u.email = email := find?_email_eq hu
  have hsome : (s.cur.users.find? (fun x => x.email == email)).isSome = true := by
    rw [hu]; rfl
  have hmail1 : (apiUpdatedUser env u).email = email := by
    simp [apiUpdatedUser, hmail]
  have hfind1 : (updateUser s.cur.users (apiUpdatedUser env u)).find?
      (fun x => x.email == email) = some (apiUpdatedUser env u) :=
    find?_updateUser s.cur.users email (apiUpdatedUser env u) hmail1 hsome
  have hsome1 : ((updateUser s.cur.users (apiUpdatedUser env u)).find?
      (fun x => x.email == email)).isSome = true := by
    rw [hfind1]; rfl
  have hfind1s : (apiUpdatedState env s u).cur.users.find?
      (fun x => x.email == email) = some (apiUpdatedUser env u) := hfind1
  have hmail2 : (apiUpdatedUser env' (apiUpdatedUser env u)).email = email := by
    simp [apiUpdatedUser, hmail]
  have hfind2 : (updateUser (updateUser s.cur.users (apiUpdatedUser env u))
      (apiUpdatedUser env' (apiUpdatedUser env u))).find? (fun x => x.email == email)
      = some (apiUpdatedUser env' (apiUpdatedUser env u)) :=
    find?_updateUser _ email _ hmail2 hsome1
  rcases htr : truthy u.api_key with _ | _
  · -- api_key falsy: a fresh key is generated
    have hgen : truthy (some (generate_api_key env.keyDraw)) = true := by
      simp [truthy, generate_api_key_not_empty]
    have hu1key : (apiUpdatedUser env u).api_key = some (generate_api_key env.keyDraw) := by
      simp [apiUpdatedUser, htr]
    have htr1 : truthy (apiUpdatedUser env u).api_key = true := by
      rw [hu1key]; exact hgen
    refine ⟨generate_api_key env.keyDraw, apiUpdatedState env s u,
      apiUpdatedState env' (apiUpdatedState env s u) (apiUpdatedUser env u),
      ?_, by simp [htr], fun _ => rfl, ?_, ?_, ?_⟩
    · rw [setup_api_access_found env email s u hu]
      simp [apiUpdatedUser, htr]
    · rw [hfind1s]
      simp [apiUpdatedUser, htr]
    · rw [setup_api_access_found env' email (apiUpdatedState env s u)
        (apiUpdatedUser env u) hfind1s]
      simp [apiUpdatedUser, htr, htr1, hgen]
    · show (updateUser (updateUser s.cur.users (apiUpdatedUser env u))
        (apiUpdatedUser env' (apiUpdatedUser env u))).find? (fun x => x.email == email) = _
      rw [hfind2]
      simp [apiUpdatedUser, htr, htr1, hgen]
  · -- api_key truthy: kept as is
    rcases hk : u.api_key with _ | str
    · rw [hk] at htr
      exact absurd htr (by simp [truthy])
    have hstr : truthy (some str) = true := by rw [← hk]; exact htr
    have hu1key : (apiUpdatedUser env u).api_key = some str := by
      simp [apiUpdatedUser, hk, hstr]
    have htr1 : truthy (apiUpdatedUser env u).api_key = true := by
      rw [hu1key]; exact hstr
    refine ⟨str, apiUpdatedState env s u,
      apiUpdatedState env' (apiUpdatedState env s u) (apiUpdatedUser env u),
      ?_, fun _ => rfl, by simp [hstr], ?_, ?_, ?_⟩
    · rw [setup_api_access_found env email s u hu]
      simp [apiUpdatedUser, hk, hstr]
    · rw [hfind1s]
      simp [apiUpdatedUser, hk, hstr]
    · rw [setup_api_access_found env' email (apiUpdatedState env s u)
        (apiUpdatedUser env u) hfind1s]
      simp [apiUpdatedUser, htr, htr1, hk, hstr]
    · show (updateUser (updateUser s.cur.users (apiUpdatedUser env u))
        (apiUpdatedUser env' (apiUpdatedUser env u))).find? (fun x => x.email == email) = _
      rw [hfind2]
      simp [apiUpdatedUser, htr, htr1, hk, hstr]

/-- Witness for C8: concrete user with the truthy key `KEEPME`. -/
theorem C8_setup_api_access_key_stable_witness :
    ∃ k s1 s2,
      setup_api_access envNoFail "u@x.com"
          ⟨{ emptyDB with users := [⟨"u@x.com", [], some "KEEPME", none⟩] },
           { emptyDB with users := [⟨"u@x.com", [], some "KEEPME", none⟩] }⟩ =
        (.ok (some k, some (generate_api_secret envNoFail.secretDraw)), s1) ∧
      (truthy (some "KEEPME") = true → some k = some "KEEPME") ∧
      (truthy (some "KEEPME") = false → k = generate_api_key envNoFail.keyDraw) ∧
      s1.cur.users.find? (fun x => x.email == "u@x.com") =
        some ⟨"u@x.com", [], some k, some (generate_api_secret envNoFail.secretDraw)⟩ ∧
      setup_api_access envNoFail "u@x.com" s1 =
        (.ok (some k, some (generate_api_secret envNoFail.secretDraw)), s2) ∧
      s2.cur.users.find? (fun x => x.email == "u@x.com") =
        some ⟨"u@x.com", [], some k, some (generate_api_secret envNoFail.secretDraw)⟩ :=
  C8_setup_api_access_key_stable envNoFail envNoFail "u@x.com"
    ⟨{ emptyDB with users := [⟨"u@x.com", [], some "KEEPME", none⟩] },
     { emptyDB with users := [⟨"u@x.com", [], some "KEEPME", none⟩] }⟩
    ⟨"u@x.com", [], some "KEEPME", none⟩ rfl

/-! ## Helper lemmas: sample items -/

/-- The seven record lists that the item loop never touches. -/
def coreFrame7 (a b : DBCore) : Prop :=
  b.companies = a.companies ∧ b.users = a.users ∧ b.roles = a.roles ∧
  b.warehouses = a.warehouses ∧ b.priceLists = a.priceLists ∧
  b.posProfiles = a.posProfiles ∧ b.customers = a.customers

theorem coreFrame7_refl (a : DBCore) : coreFrame7 a a :=
  ⟨rfl, rfl, rfl, rfl, rfl, rfl, rfl⟩

theorem coreFrame7_trans {a b c : DBCore} (h1 : coreFrame7 a b) (h2 : coreFrame7 b c) :
    coreFrame7 a c := by
  obtain ⟨x1, x2, x3, x4, x5, x6, x7⟩ := h1
  obtain ⟨y1, y2, y3, y4, y5, y6, y7⟩ := h2
  exact ⟨y1.trans x1, y2.trans x2, y3.trans x3, y4.trans x4,
    y5.trans x5, y6.trans x6, y7.trans x7⟩

theorem processItem_exists (env : Env) (c w p : String) (it : SampleItem) (s : DBState)
    (h : it.item_code ∈ s.cur.items) :
    processItem env c w p it s = (.ok [⟨it.item_code, it.barcode, none, true⟩], s) := by
  unfold processItem tryCatchDupAll
  simp [h]

theorem processItem_new (env : Env) (c w p : String) (it : SampleItem) (s : DBState)
    (h : it.item_code ∉ s.cur.items)
    (hfI : env.insertFail "Item" it.item_code = none)
    (hfP : env.insertFail "Item Price" it.item_code = none) :
    ∃ s1, processItem env c w p it s =
        (.ok [⟨it.item_code, it.barcode, some it.rate, false⟩], s1) ∧
      s1.cur.items = s.cur.items ++ [it.item_code] ∧
      coreFrame7 s.cur s1.cur ∧ s1.cur.itemGroups = s.cur.itemGroups ∧
      s1.committed = s.committed := by
  rcases hfS : env.insertFail "Stock Entry" it.item_code with _ | m
  · refine ⟨⟨{ s.cur with items := s.cur.items ++ [it.item_code], itemPrices := s.cur.itemPrices ++ [(it.item_code, p)], stockEntries := s.cur.stockEntries ++ [(it.item_code, w)] }, s.committed⟩, ?_, rfl, ⟨rfl, rfl, rfl, rfl, rfl, rfl, rfl⟩, rfl, rfl⟩
    unfold processItem tryCatchDupAll create_stock_entry tryCatchAll
    simp [h, hfI, hfP, hfS]
  · refine ⟨⟨{ s.cur with items := s.cur.items ++ [it.item_code], itemPrices := s.cur.itemPrices ++ [(it.item_code, p)] }, s.committed⟩, ?_, rfl, ⟨rfl, rfl, rfl, rfl, rfl, rfl, rfl⟩, rfl, rfl⟩
    unfold processItem tryCatchDupAll create_stock_entry tryCatchAll
    simp [h, hfI, hfP, hfS]

theorem processItems_allExist (env : Env) (c w p : String) (items : List SampleItem) :
    ∀ s : DBState, (∀ it ∈ items, it.item_code ∈ s.cur.items) →
    processItems env c w p items s =
      (.ok (items.map fun it => ⟨it.item_code, it.barcode, none, true⟩), s) := by
  induction items with
  | nil => intro s _; rfl
  | cons it rest ih =>
      intro s hall
      have h1 := processItem_exists env c w p it s (hall it (by simp))
      have h2 := ih s (fun x hx => hall x (by simp [hx]))
      unfold processItems
      simp only [bind_apply, h1, h2, pure_apply, List.map_cons]
      rfl

theorem processItems_benign (env : Env) (c w p : String) (items : List SampleItem) :
    ∀ s : DBState,
    (∀ it ∈ items, env.insertFail "Item" it.item_code = none ∧
      env.insertFail "Item Price" it.item_code = none) →
    ∃ created s', processItems env c w p items s = (.ok created, s') ∧
      created.map (fun x => x.item_code) = items.map (fun x => x.item_code) ∧
      coreFrame7 s.cur s'.cur ∧ s'.cur.itemGroups = s.cur.itemGroups ∧
      (∀ x ∈ s.cur.items, x ∈ s'.cur.items) ∧
      (∀ it ∈ items, it.item_code ∈ s'.cur.items) ∧
      s'.committed = s.committed := by
  induction items with
  | nil =>
      intro s _
      exact ⟨[], s, rfl, rfl, coreFrame7_refl _, rfl, fun x hx => hx,
        fun it hit => absurd hit (List.not_mem_nil it), rfl⟩
  | cons it rest ih =>
      intro s hf
      by_cases hmem : it.item_code ∈ s.cur.items
      · have h1 := processItem_exists env c w p it s hmem
        obtain ⟨created', s', heq, hmap, hfr, hig, hmono, hall, hcom⟩ :=
          ih s (fun x hx => hf x (by simp [hx]))
        refine ⟨⟨it.item_code, it.barcode, none, true⟩ :: created', s', ?_, ?_, hfr, hig,
          hmono, ?_, hcom⟩
        · unfold processItems
          simp only [bind_apply, h1, heq, pure_apply]
          rfl
        · simp [hmap]
        · intro x hx
          rcases List.mem_cons.mp hx with rfl | hx
          · exact hmono _ hmem
          · exact hall x hx
      · obtain ⟨s1, h1, hitems1, hfr1, hig1, hcom1⟩ := processItem_new env c w p it s hmem
          (hf it (by simp)).1 (hf it (by simp)).2
        obtain ⟨created', s', heq, hmap, hfr, hig, hmono, hall, hcom⟩ :=
          ih s1 (fun x hx => hf x (by simp [hx]))
        refine ⟨⟨it.item_code, it.barcode, some it.rate, false⟩ :: created', s', ?_, ?_,
          coreFrame7_trans hfr1 hfr, hig.trans hig1, ?_, ?_, hcom.trans hcom1⟩
        · unfold processItems
          simp only [bind_apply, h1, heq, pure_apply]
          rfl
        · simp [hmap]
        · intro x hx
          refine hmono x ?_
          rw [hitems1]
          simp [hx]
        · intro x hx
          rcases List.mem_cons.mp hx with rfl | hx
          · refine hmono _ ?_
            rw [hitems1]
            simp
          · exact hall x hx

theorem create_sample_items_seeded (env : Env) (c w p : String) (s : DBState)
    (hg : "Products" ∈ s.cur.itemGroups)
    (hall : ∀ it ∈ SAMPLE_ITEMS, it.item_code ∈ s.cur.items) :
    create_sample_items env c w p s =
      (.ok (SAMPLE_ITEMS.map fun it => ⟨it.item_code, it.barcode, none, true⟩),
       ⟨s.cur, s.cur⟩) := by
  have h1 := processItems_allExist env c w p SAMPLE_ITEMS s hall
  unfold create_sample_items
  simp only [bind_apply, getS_apply, hg, if_true, pure_apply, h1, dbCommit_apply]

theorem create_sample_items_benign (env : Env) (c w p : String) (s : DBState)
    (hfG : env.insertFail "Item Group" "Products" = none)
    (hfIt : ∀ it ∈ SAMPLE_ITEMS, env.insertFail "Item" it.item_code = none ∧
      env.insertFail "Item Price" it.item_code = none) :
    ∃ created s', create_sample_items env c w p s = (.ok created, s') ∧
      created.map (fun x => x.item_code) = SAMPLE_ITEMS.map (fun x => x.item_code) ∧
      coreFrame7 s.cur s'.cur ∧
      "Products" ∈ s'.cur.itemGroups ∧
      (∀ it ∈ SAMPLE_ITEMS, it.item_code ∈ s'.cur.items) ∧
      (∀ x ∈ s.cur.items, x ∈ s'.cur.items) ∧
      s'.committed = s'.cur := by
  by_cases hg : "Products" ∈ s.cur.itemGroups
  · obtain ⟨created, s1, heq, hmap, hfr, hig, hmono, hall, _⟩ :=
      processItems_benign env c w p SAMPLE_ITEMS s hfIt
    refine ⟨created, ⟨s1.cur, s1.cur⟩, ?_, hmap, hfr, ?_, ?_, hmono, rfl⟩
    · unfold create_sample_items
      simp only [bind_apply, getS_apply, hg, if_true, pure_apply, heq, dbCommit_apply]
    · rw [hig]; exact hg
    · exact hall
  · obtain ⟨created, s1, heq, hmap, hfr, hig, hmono, hall, _⟩ :=
      processItems_benign env c w p SAMPLE_ITEMS
        ⟨{ s.cur with itemGroups := s.cur.itemGroups ++ ["Products"] }, s.committed⟩ hfIt
    refine ⟨created, ⟨s1.cur, s1.cur⟩, ?_, hmap, ?_, ?_, ?_, ?_, rfl⟩
    · unfold create_sample_items tryCatchAll
      simp only [bind_apply, getS_apply]
      simp only [hg, if_false]
      simp [hg, hfG, heq]
    · exact coreFrame7_trans (by exact ⟨rfl, rfl, rfl, rfl, rfl, rfl, rfl⟩) hfr
    · rw [hig]; simp
    · exact hall
    · intro x hx
      exact hmono x (by simp [hx])

/-! ## Helper lemmas: create_pos_user and the role loop -/

theorem find?_append_single {α : Type} (p : α → Bool) (l : List α) (x : α)
    (hl : l.find? p = none) (hx : p x = true) : (l ++ [x]).find? p = some x := by
  induction l with
  | nil => simp [List.find?, hx]
  | cons hd t ih =>
      rcases hph : p hd with _ | _
      · simp only [List.find?, hph] at hl
        simp only [List.cons_append, List.find?, hph]
        exact ih hl
      · simp [List.find?, hph] at hl

theorem processRole_allThere (env : Env) (u : UserRec) (r : String) (s : DBState)
    (urec : UserRec) (hr : r ∈ s.cur.roles)
    (hu : s.cur.users.find? (fun x => x.email == POS_USER_EMAIL) = some urec)
    (hur : r ∈ urec.roles) :
    processRole env u r s = (.ok u, s) := by
  unfold processRole
  simp [hr, hu, hur]

theorem processRole_benign (env : Env) (u : UserRec) (r : String) (s : DBState)
    (urec : UserRec) (hf : env.insertFail "Role" r = none)
    (hu : s.cur.users.find? (fun x => x.email == POS_USER_EMAIL) = some urec) :
    ∃ u1 rl1, processRole env u r s = (.ok u1, ⟨{ s.cur with roles := rl1 }, s.committed⟩) ∧
      (∀ x ∈ s.cur.roles, x ∈ rl1) ∧ r ∈ rl1 ∧
      u1.email = u.email ∧ u1.api_key = u.api_key ∧ u1.api_secret = u.api_secret ∧
      (∀ x ∈ u.roles, x ∈ u1.roles) ∧
      (r ∈ urec.roles → u1 = u) ∧ (r ∉ urec.roles → u1.roles = u.roles ++ [r]) := by
  by_cases hr : r ∈ s.cur.roles
  · by_cases hur : r ∈ urec.roles
    · refine ⟨u, s.cur.roles, ?_, fun x hx => hx, hr, rfl, rfl, rfl,
        fun x hx => hx, fun _ => rfl, fun hc => absurd hur hc⟩
      unfold processRole
      simp [hr, hu, hur]
    · refine ⟨{ u with roles := u.roles ++ [r] }, s.cur.roles, ?_, fun x hx => hx, hr,
        rfl, rfl, rfl, fun x hx => by simp [hx], fun hc => absurd hc hur, fun _ => rfl⟩
      unfold processRole
      simp [hr, hu, hur]
  · by_cases hur : r ∈ urec.roles
    · refine ⟨u, s.cur.roles ++ [r], ?_, fun x hx => by simp [hx], by simp,
        rfl, rfl, rfl, fun x hx => hx, fun _ => rfl, fun hc => absurd hur hc⟩
      unfold processRole
      simp [hr, hf, hu, hur]
    · refine ⟨{ u with roles := u.roles ++ [r] }, s.cur.roles ++ [r], ?_,
        fun x hx => by simp [hx], by simp, rfl, rfl, rfl, fun x hx => by simp [hx],
        fun hc => absurd hc hur, fun _ => rfl⟩
      unfold processRole
      simp [hr, hf, hu, hur]

theorem processRoles_allThere (env : Env) (roles : List String) :
    ∀ (u : UserRec) (s : DBState) (urec : UserRec),
    s.cur.users.find? (fun x => x.email == POS_USER_EMAIL) = some urec →
    (∀ r ∈ roles, r ∈ s.cur.roles) → (∀ r ∈ roles, r ∈ urec.roles) →
    processRoles env u roles s = (.ok u, s) := by
  induction roles with
  | nil => intro u s urec _ _ _; rfl
  | cons r rest ih =>
      intro u s urec hu hr hur
      have h1 := processRole_allThere env u r s urec (hr r (by simp)) hu (hur r (by simp))
      have h2 := ih u s urec hu (fun x hx => hr x (by simp [hx]))
        (fun x hx => hur x (by simp [hx]))
      unfold processRoles
      simp only [bind_apply, h1, h2]

theorem processRoles_benign (env : Env) (roles : List String) :
    ∀ (u : UserRec) (s : DBState) (urec : UserRec),
    (∀ r ∈ roles, env.insertFail "Role" r = none) →
    s.cur.users.find? (fun x => x.email == POS_USER_EMAIL) = some urec →
    ∃ u1 rl1, processRoles env u roles s =
        (.ok u1, ⟨{ s.cur with roles := rl1 }, s.committed⟩) ∧
      (∀ x ∈ s.cur.roles, x ∈ rl1) ∧ (∀ r ∈ roles, r ∈ rl1) ∧
      u1.email = u.email ∧ u1.api_key = u.api_key ∧ u1.api_secret = u.api_secret ∧
      (∀ x ∈ u.roles, x ∈ u1.roles) ∧
      (∀ r ∈ roles, r ∈ urec.roles ∨ r ∈ u1.roles) := by
  induction roles with
  | nil =>
      intro u s urec _ _
      exact ⟨u, s.cur.roles, rfl, fun x hx => hx, by simp, rfl, rfl, rfl,
        fun x hx => hx, by simp⟩
  | cons r rest ih =>
      intro u s urec hf hu
      obtain ⟨u1, rl1, h1, hmono1, hr1, he1, hk1, hs1, hur1, hmem1, hnmem1⟩ :=
        processRole_benign env u r s urec (hf r (by simp)) hu
      have hu' : ({ s.cur with roles := rl1 } : DBCore).users.find?
          (fun x => x.email == POS_USER_EMAIL) = some urec := hu
      obtain ⟨u2, rl2, h2, hmono2, hall2, he2, hk2, hs2, hur2, hcov2⟩ :=
        ih u1 ⟨{ s.cur with roles := rl1 }, s.committed⟩ urec
          (fun x hx => hf x (by simp [hx])) hu'
      refine ⟨u2, rl2, ?_, fun x hx => hmono2 x (hmono1 x hx), ?_,
        he2.trans he1, hk2.trans hk1, hs2.trans hs1,
        fun x hx => hur2 x (hur1 x hx), ?_⟩
      · unfold processRoles
        simp only [bind_apply, h1, h2]
      · intro x hx
        rcases List.mem_cons.mp hx with rfl | hx
        · exact hmono2 x hr1
        · exact hall2 x hx
      · intro x hx
        rcases List.mem_cons.mp hx with rfl | hx
        · by_cases hxu : x ∈ urec.roles
          · exact Or.inl hxu
          · refine Or.inr (hur2 x ?_)
            rw [hnmem1 hxu]
            simp
        · exact hcov2 x hx

theorem getUserDoc_found (email : String) (s : DBState) (u : UserRec)
    (h : s.cur.users.find? (fun x => x.email == email) = some u) :
    getUserDoc email s = (.ok u, s) := by
  unfold getUserDoc
  rw [h]

theorem create_pos_user_seeded (env : Env) (s : DBState) (u0 : UserRec)
    (hfind : s.cur.users.find? (fun x => x.email == POS_USER_EMAIL) = some u0)
    (hroles : ∀ r ∈ requiredRoles, r ∈ s.cur.roles)
    (huroles : ∀ r ∈ requiredRoles, r ∈ u0.roles) :
    ∃ pu s', create_pos_user env s = (.ok pu, s') ∧
      pu.email = POS_USER_EMAIL ∧
      s'.cur.users.map (fun x => x.email) = s.cur.users.map (fun x => x.email) ∧
      s'.cur.roles = s.cur.roles ∧
      s'.cur.companies = s.cur.companies ∧ s'.cur.warehouses = s.cur.warehouses ∧
      s'.cur.priceLists = s.cur.priceLists ∧ s'.cur.posProfiles = s.cur.posProfiles ∧
      s'.cur.customers = s.cur.customers ∧ s'.cur.items = s.cur.items ∧
      s'.cur.itemGroups = s.cur.itemGroups ∧ s'.cur.itemPrices = s.cur.itemPrices ∧
      s'.cur.stockEntries = s.cur.stockEntries := by
  have hsome : (s.cur.users.find? (fun x => x.email == POS_USER_EMAIL)).isSome = true := by
    rw [hfind]; rfl
  have hmail0 : u0.email = POS_USER_EMAIL := find?_email_eq hfind
  have hgud := getUserDoc_found POS_USER_EMAIL s u0 hfind
  have hpr := processRoles_allThere env requiredRoles u0 s u0 hfind hroles huroles
  have hfind1 : (updateUser s.cur.users u0).find? (fun x => x.email == POS_USER_EMAIL)
      = some u0 := find?_updateUser s.cur.users POS_USER_EMAIL u0 hmail0 hsome
  have hsaa := setup_api_access_found env POS_USER_EMAIL
    ⟨{ s.cur with users := updateUser s.cur.users u0 }, s.committed⟩ u0 hfind1
  refine ⟨⟨POS_USER_EMAIL, POS_USER_PASSWORD, (apiUpdatedUser env u0).api_key,
      (apiUpdatedUser env u0).api_secret, requiredRoles⟩,
    apiUpdatedState env ⟨{ s.cur with users := updateUser s.cur.users u0 }, s.committed⟩ u0,
    ?_, rfl, ?_, rfl, rfl, rfl, rfl, rfl, rfl, rfl, rfl, rfl, rfl⟩
  · unfold create_pos_user tryCatchAll
    simp only [bind_apply, getS_apply, hsome, if_true, hgud, hpr, saveUser,
      modifyCur_apply, hsaa, dbCommit_apply, pure_apply, apiUpdatedState]
  · show (updateUser (updateUser s.cur.users u0) (apiUpdatedUser env u0)).map
      (fun x => x.email) = s.cur.users.map (fun x => x.email)
    rw [updateUser_map_email, updateUser_map_email]

theorem create_pos_user_benign (env : Env) (s : DBState)
    (hfU : env.insertFail "User" POS_USER_EMAIL = none)
    (hfR : ∀ r ∈ requiredRoles, env.insertFail "Role" r = none) :
    ∃ pu s', create_pos_user env s = (.ok pu, s') ∧
      pu.email = POS_USER_EMAIL ∧
      (∃ u', s'.cur.users.find? (fun x => x.email == POS_USER_EMAIL) = some u' ∧
        ∀ r ∈ requiredRoles, r ∈ u'.roles) ∧
      (∀ r ∈ requiredRoles, r ∈ s'.cur.roles) ∧
      (s'.cur.users.map (fun x => x.email) = s.cur.users.map (fun x => x.email) ∨
       s'.cur.users.map (fun x => x.email) =
         s.cur.users.map (fun x => x.email) ++ [POS_USER_EMAIL]) ∧
      s'.cur.companies = s.cur.companies ∧ s'.cur.warehouses = s.cur.warehouses ∧
      s'.cur.priceLists = s.cur.priceLists ∧ s'.cur.posProfiles = s.cur.posProfiles ∧
      s'.cur.customers = s.cur.customers ∧ s'.cur.items = s.cur.items ∧
      s'.cur.itemGroups = s.cur.itemGroups ∧ s'.cur.itemPrices = s.cur.itemPrices ∧
      s'.cur.stockEntries = s.cur.stockEntries := by
  rcases hex : s.cur.users.find? (fun x => x.email == POS_USER_EMAIL) with _ | u0
  · -- the POS user does not exist yet: insert then fetch
    have hnew : (⟨POS_USER_EMAIL, [], none, none⟩ : UserRec).email == POS_USER_EMAIL := by
      simp
    have hfind0 : (s.cur.users ++ [(⟨POS_USER_EMAIL, [], none, none⟩ : UserRec)]).find?
        (fun x => x.email == POS_USER_EMAIL) = some ⟨POS_USER_EMAIL, [], none, none⟩ :=
      find?_append_single _ s.cur.users _ hex hnew
    have hgud := getUserDoc_found POS_USER_EMAIL
      ⟨{ s.cur with users := s.cur.users ++ [⟨POS_USER_EMAIL, [], none, none⟩] },
       s.committed⟩ _ hfind0
    obtain ⟨u1, rl1, hpr, hmono1, hall1, he1, hk1, hs1, hur1, hcov1⟩ :=
      processRoles_benign env requiredRoles ⟨POS_USER_EMAIL, [], none, none⟩
        ⟨{ s.cur with users := s.cur.users ++ [⟨POS_USER_EMAIL, [], none, none⟩] },
         s.committed⟩ ⟨POS_USER_EMAIL, [], none, none⟩ hfR hfind0
    have hmail1 : u1.email = POS_USER_EMAIL := he1
    have hsome1 : ((s.cur.users ++ [(⟨POS_USER_EMAIL, [], none, none⟩ : UserRec)]).find?
        (fun x => x.email == POS_USER_EMAIL)).isSome = true := by
      rw [hfind0]; rfl
    have hfind1 : (updateUser (s.cur.users ++ [⟨POS_USER_EMAIL, [], none, none⟩]) u1).find?
        (fun x => x.email == POS_USER_EMAIL) = some u1 :=
      find?_updateUser _ POS_USER_EMAIL u1 hmail1 hsome1
    have hsaa := setup_api_access_found env POS_USER_EMAIL
      ⟨{ s.cur with users := updateUser (s.cur.users ++ [⟨POS_USER_EMAIL, [], none, none⟩]) u1, roles := rl1 }, s.committed⟩ u1 hfind1
    have hfinal : (updateUser (updateUser (s.cur.users ++
        [⟨POS_USER_EMAIL, [], none, none⟩]) u1) (apiUpdatedUser env u1)).find?
        (fun x => x.email == POS_USER_EMAIL) = some (apiUpdatedUser env u1) := by
      refine find?_updateUser _ POS_USER_EMAIL _ ?_ ?_
      · show u1.email = POS_USER_EMAIL
        exact hmail1
      · rw [hfind1]; rfl
    refine ⟨⟨POS_USER_EMAIL, POS_USER_PASSWORD, (apiUpdatedUser env u1).api_key,
        (apiUpdatedUser env u1).api_secret, requiredRoles⟩,
      apiUpdatedState env ⟨{ s.cur with users := updateUser (s.cur.users ++ [⟨POS_USER_EMAIL, [], none, none⟩]) u1, roles := rl1 }, s.committed⟩ u1,
      ?_, rfl,
      ⟨apiUpdatedUser env u1, hfinal, ?_⟩, ?_, ?_, rfl, rfl, rfl, rfl, rfl, rfl, rfl,
      rfl, rfl⟩
    · unfold create_pos_user tryCatchAll
      simp only [bind_apply, getS_apply, hex, Option.isSome_none, Bool.false_eq_true,
        if_false, insertRecord_apply, hfU]
      have hdup : ((s.cur.users.find? (fun x => x.email == POS_USER_EMAIL)).isSome : Bool)
          = false := by rw [hex]; rfl
      simp only [hdup, Bool.false_eq_true, if_false, hgud, hpr, saveUser, modifyCur_apply,
        hsaa, dbCommit_apply, pure_apply, apiUpdatedState]
    · intro r hr
      show r ∈ u1.roles
      rcases hcov1 r hr with hc | hc
      · exact absurd hc (List.not_mem_nil r)
      · exact hc
    · intro r hr
      show r ∈ rl1
      exact hall1 r hr
    · right
      show (updateUser (updateUser (s.cur.users ++ [⟨POS_USER_EMAIL, [], none, none⟩]) u1)
        (apiUpdatedUser env u1)).map (fun x => x.email) = _
      rw [updateUser_map_email, updateUser_map_email]
      simp
  · -- the POS user already exists
    have hsome : (s.cur.users.find? (fun x => x.email == POS_USER_EMAIL)).isSome = true := by
      rw [hex]; rfl
    have hmail0 : u0.email = POS_USER_EMAIL := find?_email_eq hex
    have hgud := getUserDoc_found POS_USER_EMAIL s u0 hex
    obtain ⟨u1, rl1, hpr, hmono1, hall1, he1, hk1, hs1, hur1, hcov1⟩ :=
      processRoles_benign env requiredRoles u0 s u0 hfR hex
    have hmail1 : u1.email = POS_USER_EMAIL := he1.trans hmail0
    have hfind1 : (updateUser s.cur.users u1).find?
        (fun x => x.email == POS_USER_EMAIL) = some u1 :=
      find?_updateUser _ POS_USER_EMAIL u1 hmail1 hsome
    have hsaa := setup_api_access_found env POS_USER_EMAIL
      ⟨{ s.cur with users := updateUser s.cur.users u1, roles := rl1 }, s.committed⟩
      u1 hfind1
    have hfinal : (updateUser (updateUser s.cur.users u1) (apiUpdatedUser env u1)).find?
        (fun x => x.email == POS_USER_EMAIL) = some (apiUpdatedUser env u1) := by
      refine find?_updateUser _ POS_USER_EMAIL _ hmail1 ?_
      rw [hfind1]; rfl
    refine ⟨⟨POS_USER_EMAIL, POS_USER_PASSWORD, (apiUpdatedUser env u1).api_key,
        (apiUpdatedUser env u1).api_secret, requiredRoles⟩,
      apiUpdatedState env ⟨{ s.cur with users := updateUser s.cur.users u1, roles := rl1 }, s.committed⟩ u1,
      ?_, rfl,
      ⟨apiUpdatedUser env u1, hfinal, ?_⟩, ?_, ?_, rfl, rfl, rfl, rfl, rfl, rfl, rfl,
      rfl, rfl⟩
    · unfold create_pos_user tryCatchAll
      simp only [bind_apply, getS_apply, hsome, if_true, hgud, hpr, saveUser,
        modifyCur_apply, hsaa, dbCommit_apply, pure_apply, apiUpdatedState]
    · intro r hr
      show r ∈ u1.roles
      rcases hcov1 r hr with hc | hc
      · exact hur1 r hc
      · exact hc
    · intro r hr
      show r ∈ rl1
      exact hall1 r hr
    · left
      show (updateUser (updateUser s.cur.users u1) (apiUpdatedUser env u1)).map
        (fun x => x.email) = _
      rw [updateUser_map_email, updateUser_map_email]

/-! ## Step lemmas with uniform conclusions, used to assemble main -/

theorem company_of_congr {a b : DBCore} (h : b.companies = a.companies) :
    company_of b = company_of a := by
  unfold company_of
  rw [h]

theorem create_company_spec (env : Env) (s : DBState)
    (hf : env.insertFail "Company" DEFAULT_COMPANY = none) :
    ∃ t, create_company env s = (.ok (company_of s.cur), t) ∧
      t.cur.companies ≠ [] ∧ company_of t.cur = company_of s.cur ∧
      t.cur.users = s.cur.users ∧ t.cur.roles = s.cur.roles ∧
      t.cur.warehouses = s.cur.warehouses ∧ t.cur.priceLists = s.cur.priceLists ∧
      t.cur.posProfiles = s.cur.posProfiles ∧ t.cur.customers = s.cur.customers ∧
      t.cur.items = s.cur.items ∧ t.cur.itemGroups = s.cur.itemGroups := by
  rcases hc : s.cur.companies with _ | ⟨c, cs⟩
  · have hco : company_of s.cur = DEFAULT_COMPANY := by
      unfold company_of
      rw [hc]
      rfl
    refine ⟨⟨{ s.cur with companies := [DEFAULT_COMPANY] },
      { s.cur with companies := [DEFAULT_COMPANY] }⟩, ?_, by simp, ?_,
      rfl, rfl, rfl, rfl, rfl, rfl, rfl, rfl⟩
    · rw [hco]
      exact create_company_empty env s hc hf
    · rw [hco]
      rfl
  · have hco : company_of s.cur = c := by
      unfold company_of
      rw [hc]
      rfl
    refine ⟨s, ?_, by rw [hc]; simp, rfl, rfl, rfl, rfl, rfl, rfl, rfl, rfl, rfl⟩
    rw [hco]
    exact create_company_existing env s c cs hc

theorem create_warehouse_spec (env : Env) (c : String) (s : DBState)
    (hf1 : env.insertFail "Warehouse" (rootWarehouseName c) = none)
    (hf2 : env.insertFail "Warehouse" (warehouseName c) = none) :
    ∃ t, create_warehouse env c s = (.ok (warehouseName c), t) ∧
      warehouseName c ∈ t.cur.warehouses.map (fun w => w.name) ∧
      t.cur.companies = s.cur.companies ∧ t.cur.users = s.cur.users ∧
      t.cur.roles = s.cur.roles ∧ t.cur.priceLists = s.cur.priceLists ∧
      t.cur.posProfiles = s.cur.posProfiles ∧ t.cur.customers = s.cur.customers ∧
      t.cur.items = s.cur.items ∧ t.cur.itemGroups = s.cur.itemGroups := by
  by_cases h : warehouseName c ∈ s.cur.warehouses.map (fun w => w.name)
  · exact ⟨s, create_warehouse_existing env c s h, h, rfl, rfl, rfl, rfl, rfl, rfl,
      rfl, rfl⟩
  · obtain ⟨ws', heq, hmem, _⟩ := create_warehouse_new env c s h hf1 hf2
    exact ⟨⟨{ s.cur with warehouses := ws' }, { s.cur with warehouses := ws' }⟩,
      heq, hmem, rfl, rfl, rfl, rfl, rfl, rfl, rfl, rfl⟩

theorem create_price_list_spec (env : Env) (s : DBState)
    (hf : env.insertFail "Price List" DEFAULT_PRICE_LIST = none) :
    ∃ t, create_price_list env s = (.ok DEFAULT_PRICE_LIST, t) ∧
      DEFAULT_PRICE_LIST ∈ t.cur.priceLists ∧
      t.cur.companies = s.cur.companies ∧ t.cur.users = s.cur.users ∧
      t.cur.roles = s.cur.roles ∧ t.cur.warehouses = s.cur.warehouses ∧
      t.cur.posProfiles = s.cur.posProfiles ∧ t.cur.customers = s.cur.customers ∧
      t.cur.items = s.cur.items ∧ t.cur.itemGroups = s.cur.itemGroups := by
  by_cases h : DEFAULT_PRICE_LIST ∈ s.cur.priceLists
  · exact ⟨s, create_price_list_existing env s h, h, rfl, rfl, rfl, rfl, rfl, rfl,
      rfl, rfl⟩
  · refine ⟨⟨{ s.cur with priceLists := s.cur.priceLists ++ [DEFAULT_PRICE_LIST] },
      { s.cur with priceLists := s.cur.priceLists ++ [DEFAULT_PRICE_LIST] }⟩,
      create_price_list_new env s h hf, by simp, rfl, rfl, rfl, rfl, rfl, rfl, rfl, rfl⟩

theorem create_customer_spec (env : Env) (s : DBState)
    (hf : env.insertFail "Customer" DEFAULT_CUSTOMER = none) :
    ∃ t, create_customer env s = (.ok DEFAULT_CUSTOMER, t) ∧
      DEFAULT_CUSTOMER ∈ t.cur.customers ∧
      t.cur.companies = s.cur.companies ∧ t.cur.users = s.cur.users ∧
      t.cur.roles = s.cur.roles ∧ t.cur.warehouses = s.cur.warehouses ∧
      t.cur.priceLists = s.cur.priceLists ∧ t.cur.posProfiles = s.cur.posProfiles ∧
      t.cur.items = s.cur.items ∧ t.cur.itemGroups = s.cur.itemGroups := by
  by_cases h : DEFAULT_CUSTOMER ∈ s.cur.customers
  · exact ⟨s, create_customer_existing env s h, h, rfl, rfl, rfl, rfl, rfl, rfl,
      rfl, rfl⟩
  · refine ⟨⟨{ s.cur with customers := s.cur.customers ++ [DEFAULT_CUSTOMER] },
      { s.cur with customers := s.cur.customers ++ [DEFAULT_CUSTOMER] }⟩,
      create_customer_new env s h hf, by simp, rfl, rfl, rfl, rfl, rfl, rfl, rfl, rfl⟩

theorem create_pos_profile_spec (env : Env) (c w p : String) (s : DBState) :
    ∃ r t, create_pos_profile env c w p s = (.ok r, t) ∧
      t.cur.companies = s.cur.companies ∧ t.cur.users = s.cur.users ∧
      t.cur.roles = s.cur.roles ∧ t.cur.warehouses = s.cur.warehouses ∧
      t.cur.priceLists = s.cur.priceLists ∧ t.cur.customers = s.cur.customers ∧
      t.cur.items = s.cur.items ∧ t.cur.itemGroups = s.cur.itemGroups ∧
      ((env.insertFail "POS Profile" DEFAULT_POS_PROFILE = none ∨
        DEFAULT_POS_PROFILE ∈ s.cur.posProfiles) →
        r = some DEFAULT_POS_PROFILE ∧ DEFAULT_POS_PROFILE ∈ t.cur.posProfiles) ∧
      (env.insertFail "POS Profile" DEFAULT_POS_PROFILE ≠ none →
        DEFAULT_POS_PROFILE ∉ s.cur.posProfiles → r = none) := by
  by_cases h : DEFAULT_POS_PROFILE ∈ s.cur.posProfiles
  · exact ⟨some DEFAULT_POS_PROFILE, s, create_pos_profile_existing env c w p s h,
      rfl, rfl, rfl, rfl, rfl, rfl, rfl, rfl, fun _ => ⟨rfl, h⟩, fun _ hn => absurd h hn⟩
  · rcases hfp : env.insertFail "POS Profile" DEFAULT_POS_PROFILE with _ | m
    · refine ⟨some DEFAULT_POS_PROFILE,
        ⟨{ s.cur with posProfiles := s.cur.posProfiles ++ [DEFAULT_POS_PROFILE] },
         { s.cur with posProfiles := s.cur.posProfiles ++ [DEFAULT_POS_PROFILE] }⟩,
        create_pos_profile_new env c w p s h hfp,
        rfl, rfl, rfl, rfl, rfl, rfl, rfl, rfl, fun _ => ⟨rfl, by simp⟩,
        fun hne _ => absurd rfl hne⟩
    · refine ⟨none, s, create_pos_profile_fail env c w p s m h hfp,
        rfl, rfl, rfl, rfl, rfl, rfl, rfl, rfl, ?_, fun _ _ => rfl⟩
      rintro (hc | hc)
      · exact absurd hc (by simp)
      · exact absurd hc h

/-! ## Whole-run lemmas for main -/

theorem main_benign_except_pp (env : Env) (s : DBState)
    (hb : ∀ dt n, dt ≠ "POS Profile" → env.insertFail dt n = none) :
    ∃ creds s1, main env s = (.ok creds, s1) ∧
      s1.cur.companies ≠ [] ∧
      company_of s1.cur = company_of s.cur ∧
      (∃ u', s1.cur.users.find? (fun x => x.email == POS_USER_EMAIL) = some u' ∧
        ∀ r ∈ requiredRoles, r ∈ u'.roles) ∧
      (∀ r ∈ requiredRoles, r ∈ s1.cur.roles) ∧
      warehouseName (company_of s.cur) ∈ s1.cur.warehouses.map (fun w => w.name) ∧
      DEFAULT_PRICE_LIST ∈ s1.cur.priceLists ∧
      DEFAULT_CUSTOMER ∈ s1.cur.customers ∧
      (∀ it ∈ SAMPLE_ITEMS, it.item_code ∈ s1.cur.items) ∧
      "Products" ∈ s1.cur.itemGroups ∧
      creds.company = company_of s.cur ∧
      creds.warehouse = warehouseName (company_of s.cur) ∧
      creds.price_list = DEFAULT_PRICE_LIST ∧
      creds.default_customer = DEFAULT_CUSTOMER ∧
      creds.pos_user.email = POS_USER_EMAIL ∧
      creds.sample_items.map (fun x => x.item_code) =
        SAMPLE_ITEMS.map (fun x => x.item_code) ∧
      ((env.insertFail "POS Profile" DEFAULT_POS_PROFILE = none ∨
        DEFAULT_POS_PROFILE ∈ s.cur.posProfiles) →
        creds.pos_profile_name = some DEFAULT_POS_PROFILE ∧
        DEFAULT_POS_PROFILE ∈ s1.cur.posProfiles) ∧
      (env.insertFail "POS Profile" DEFAULT_POS_PROFILE ≠ none →
        DEFAULT_POS_PROFILE ∉ s.cur.posProfiles → creds.pos_profile_name = none) := by
  obtain ⟨t1, heq1, hco1ne, hco1, h1u, h1r, h1w, h1pl, h1pp, h1cu, h1it, h1ig⟩ :=
    create_company_spec env s (hb "Company" DEFAULT_COMPANY (by decide))
  obtain ⟨pu, t2, heq2, hpuem, hufind2, hroles2, humap2, h2co, h2w, h2pl, h2pp, h2cu,
      h2it, h2ig, h2ip, h2se⟩ :=
    create_pos_user_benign env t1 (hb "User" POS_USER_EMAIL (by decide))
      (fun r _ => hb "Role" r (by decide))
  obtain ⟨t3, heq3, hwh3, h3co, h3u, h3r, h3pl, h3pp, h3cu, h3it, h3ig⟩ :=
    create_warehouse_spec env (company_of s.cur) t2
      (hb "Warehouse" (rootWarehouseName (company_of s.cur)) (by decide))
      (hb "Warehouse" (warehouseName (company_of s.cur)) (by decide))
  obtain ⟨t4, heq4, hpl4, h4co, h4u, h4r, h4w, h4pp, h4cu, h4it, h4ig⟩ :=
    create_price_list_spec env t3 (hb "Price List" DEFAULT_PRICE_LIST (by decide))
  obtain ⟨t5, heq5, hcu5, h5co, h5u, h5r, h5w, h5pl, h5pp, h5it, h5ig⟩ :=
    create_customer_spec env t4 (hb "Customer" DEFAULT_CUSTOMER (by decide))
  obtain ⟨r6, t6, heq6, h6co, h6u, h6r, h6w, h6pl, h6cu, h6it, h6ig, hpp6some,
      hpp6none⟩ :=
    create_pos_profile_spec env (company_of s.cur) (warehouseName (company_of s.cur))
      DEFAULT_PRICE_LIST t5
  obtain ⟨created, t7, heq7, hcmap, ⟨h7co, h7u, h7r, h7w, h7pl, h7pp, h7cu⟩, hig7,
      hitems7, _, _⟩ :=
    create_sample_items_benign env (company_of s.cur) (warehouseName (company_of s.cur))
      DEFAULT_PRICE_LIST t6 (hb "Item Group" "Products" (by decide))
      (fun it _ => ⟨hb "Item" it.item_code (by decide),
        hb "Item Price" it.item_code (by decide)⟩)
  have hbody : main_body env s =
      (.ok ⟨pu, env.serverUrl, env.siteName, r6, warehouseName (company_of s.cur),
        DEFAULT_PRICE_LIST, company_of s.cur, DEFAULT_CUSTOMER, created⟩, t7) := by
    unfold main_body save_credentials
    simp only [bind_apply, heq1, heq2, heq3, heq4, heq5, heq6, heq7, pure_apply]
  have hmain : main env s =
      (.ok ⟨pu, env.serverUrl, env.siteName, r6, warehouseName (company_of s.cur),
        DEFAULT_PRICE_LIST, company_of s.cur, DEFAULT_CUSTOMER, created⟩, t7) := by
    unfold main
    rw [hbody]
  -- transport memberships and record facts to the final state t7
  have hu7 : t7.cur.users = t2.cur.users := by
    rw [h7u, h6u, h5u, h4u, h3u]
  have hr7 : t7.cur.roles = t2.cur.roles := by
    rw [h7r, h6r, h5r, h4r, h3r]
  have hco7 : t7.cur.companies = t1.cur.companies := by
    rw [h7co, h6co, h5co, h4co, h3co, h2co]
  have hw7 : t7.cur.warehouses = t3.cur.warehouses := by
    rw [h7w, h6w, h5w, h4w]
  have hpl7 : t7.cur.priceLists = t4.cur.priceLists := by
    rw [h7pl, h6pl, h5pl]
  have hcu7 : t7.cur.customers = t5.cur.customers := by
    rw [h7cu, h6cu]
  have hpp5 : t5.cur.posProfiles = s.cur.posProfiles := by
    rw [h5pp, h4pp, h3pp, h2pp, h1pp]
  refine ⟨_, t7, hmain, ?_, ?_, ?_, ?_, ?_, ?_, ?_, hitems7, hig7, rfl, rfl, rfl, rfl,
    hpuem, hcmap, ?_, ?_⟩
  · rw [hco7]
    exact hco1ne
  · exact (company_of_congr hco7).trans hco1
  · rw [hu7]
    exact hufind2
  · rw [hr7]
    exact hroles2
  · rw [hw7]
    exact hwh3
  · rw [hpl7]
    exact hpl4
  · rw [hcu7]
    exact hcu5
  · intro hc
    rw [← hpp5] at hc
    obtain ⟨hr6, hmem6⟩ := hpp6some hc
    refine ⟨hr6, ?_⟩
    rw [h7pp]
    exact hmem6
  · intro hne hnm
    rw [← hpp5] at hnm
    exact hpp6none hne hnm

theorem main_seeded (env : Env) (s : DBState) (hs : Seeded s.cur) :
    ∃ creds2 s2, main env s = (.ok creds2, s2) ∧
      recordNames s2.cur = recordNames s.cur ∧
      creds2.company = company_of s.cur ∧
      creds2.warehouse = warehouseName (company_of s.cur) ∧
      creds2.price_list = DEFAULT_PRICE_LIST ∧
      creds2.default_customer = DEFAULT_CUSTOMER ∧
      creds2.pos_profile_name = some DEFAULT_POS_PROFILE ∧
      creds2.sample_items.map (fun x => x.item_code) =
        SAMPLE_ITEMS.map (fun x => x.item_code) ∧
      creds2.pos_user.email = POS_USER_EMAIL := by
  obtain ⟨hcne, ⟨u0, hufind, huroles⟩, hroles, hwh, hpl, hpp, hcu, hitems, hig⟩ := hs
  rcases hc : s.cur.companies with _ | ⟨c, cs⟩
  · exact absurd hc hcne
  have hco : company_of s.cur = c := by
    unfold company_of
    rw [hc]
    rfl
  have heq1 : create_company env s = (.ok (company_of s.cur), s) := by
    rw [hco]
    exact create_company_existing env s c cs hc
  obtain ⟨pu, t2, heq2, hpuem, humap2, hr2, h2co, h2w, h2pl, h2pp, h2cu, h2it, h2ig,
      h2ip, h2se⟩ :=
    create_pos_user_seeded env s u0 hufind hroles huroles
  have hwh2 : warehouseName (company_of s.cur) ∈
      t2.cur.warehouses.map (fun w => w.name) := by
    rw [h2w]
    exact hwh
  have heq3 := create_warehouse_existing env (company_of s.cur) t2 hwh2
  have heq4 := create_price_list_existing env t2 (by rw [h2pl]; exact hpl)
  have heq5 := create_customer_existing env t2 (by rw [h2cu]; exact hcu)
  have heq6 := create_pos_profile_existing env (company_of s.cur)
    (warehouseName (company_of s.cur)) DEFAULT_PRICE_LIST t2 (by rw [h2pp]; exact hpp)
  have heq7 := create_sample_items_seeded env (company_of s.cur)
    (warehouseName (company_of s.cur)) DEFAULT_PRICE_LIST t2 (by rw [h2ig]; exact hig)
    (fun it hit => by rw [h2it]; exact hitems it hit)
  have hbody : main_body env s =
      (.ok ⟨pu, env.serverUrl, env.siteName, some DEFAULT_POS_PROFILE,
        warehouseName (company_of s.cur), DEFAULT_PRICE_LIST, company_of s.cur,
        DEFAULT_CUSTOMER, SAMPLE_ITEMS.map fun it => ⟨it.item_code, it.barcode, none, true⟩⟩,
       ⟨t2.cur, t2.cur⟩) := by
    unfold main_body save_credentials
    simp only [bind_apply, heq1, heq2, heq3, heq4, heq5, heq6, heq7, pure_apply]
  have hmain : main env s =
      (.ok ⟨pu, env.serverUrl, env.siteName, some DEFAULT_POS_PROFILE,
        warehouseName (company_of s.cur), DEFAULT_PRICE_LIST, company_of s.cur,
        DEFAULT_CUSTOMER, SAMPLE_ITEMS.map fun it => ⟨it.item_code, it.barcode, none, true⟩⟩,
       ⟨t2.cur, t2.cur⟩) := by
    unfold main
    rw [hbody]
  refine ⟨_, ⟨t2.cur, t2.cur⟩, hmain, ?_, rfl, rfl, rfl, rfl, rfl, ?_, hpuem⟩
  · unfold recordNames
    rw [show (⟨t2.cur, t2.cur⟩ : DBState).cur = t2.cur from rfl,
      h2co, humap2, hr2, h2w, h2pl, h2pp, h2cu, h2it, h2ig, h2ip, h2se]
  · simp

/-! ## Claim theorems: C1 and C9 -/

/-- C1: seeding is idempotent.  After a first run of `setup_pos.main`
in which every framework insert succeeds, a second run (with arbitrary
insert behaviour and fresh random draws) finds every seeded entity
already present: it succeeds without any duplication error, creates no
record of any kind (all record-name lists are unchanged), and reports
the same named entities (company, warehouse, price list, customer, POS
profile, user email, item codes) as the first run. -/
theorem C1_seeding_idempotent (env env' : Env) (s : DBState)
    (hb : ∀ dt n, env.insertFail dt n = none) :
    ∃ creds s1 creds2 s2,
      main env s = (.ok creds, s1) ∧
      main env' s1 = (.ok creds2, s2) ∧
      recordNames s2.cur = recordNames s1.cur ∧
      creds.pos_profile_name = some DEFAULT_POS_PROFILE ∧
      creds2.pos_profile_name = some DEFAULT_POS_PROFILE ∧
      creds2.company = creds.company ∧
      creds2.warehouse = creds.warehouse ∧
      creds2.price_list = creds.price_list ∧
      creds2.default_customer = creds.default_customer ∧
      creds2.pos_user.email = creds.pos_user.email ∧
      creds2.sample_items.map (fun x => x.item_code) =
        creds.sample_items.map (fun x => x.item_code) := by
  obtain ⟨creds, s1, hmain1, hcne, hcoeq, hufind, hroles, hwh, hpl, hcu, hitems, hig,
      hcomp, hwarc, hplc, hcust, hpue, hsic, hppsome, _⟩ :=
    main_benign_except_pp env s (fun dt n _ => hb dt n)
  obtain ⟨hppname, hppmem⟩ := hppsome (Or.inl (hb _ _))
  have hseed : Seeded s1.cur := by
    refine ⟨hcne, hufind, hroles, ?_, hpl, hppmem, hcu, hitems, hig⟩
    rw [hcoeq]
    exact hwh
  obtain ⟨creds2, s2, hmain2, hrn, hcomp2, hwar2, hpl2, hcust2, hpp2, hsic2, hpue2⟩ :=
    main_seeded env' s1 hseed
  refine ⟨creds, s1, creds2, s2, hmain1, hmain2, hrn, hppname, hpp2,
    ?_, ?_, ?_, ?_, ?_, ?_⟩
  · rw [hcomp2, hcoeq, hcomp]
  · rw [hwar2, hcoeq, hwarc]
  · rw [hpl2, hplc]
  · rw [hcust2, hcust]
  · rw [hpue2, hpue]
  · rw [hsic2, hsic]

/-- Witness for C1: two runs from the empty database under an
environment without framework failures. -/
theorem C1_seeding_idempotent_witness :
    ∃ creds s1 creds2 s2,
      main envNoFail ⟨emptyDB, emptyDB⟩ = (.ok creds, s1) ∧
      main envNoFail s1 = (.ok creds2, s2) ∧
      recordNames s2.cur = recordNames s1.cur ∧
      creds.pos_profile_name = some DEFAULT_POS_PROFILE ∧
      creds2.pos_profile_name = some DEFAULT_POS_PROFILE ∧
      creds2.company = creds.company ∧
      creds2.warehouse = creds.warehouse ∧
      creds2.price_list = creds.price_list ∧
      creds2.default_customer = creds.default_customer ∧
      creds2.pos_user.email = creds.pos_user.email ∧
      creds2.sample_items.map (fun x => x.item_code) =
        creds.sample_items.map (fun x => x.item_code) :=
  C1_seeding_idempotent envNoFail envNoFail ⟨emptyDB, emptyDB⟩ (fun _ _ => rfl)

/-- Environment whose only framework failure is the POS Profile insert. -/
def envFailPosProfile : Env :=
  { envNoFail with
    insertFail := fun dt _ => if dt = "POS Profile" then some "boom" else none }

/-- C9: `create_pos_profile` swallows every exception other than
`DuplicateEntryError` and returns `None` instead of re-raising: (1) it
never raises at all; (2) with an injected non-duplicate insert failure
it returns `None` and leaves the database untouched; (3) by contrast,
`create_customer` re-raises the same injected failure; (4) hence `main`
continues past a failing POS-profile build, completes, and records a
null POS-profile name in the credentials output. -/
theorem C9_pos_profile_soft_failure :
    (∀ (env : Env) (c w p : String) (s : DBState),
      ∃ r s', create_pos_profile env c w p s = (.ok r, s')) ∧
    (∀ (env : Env) (c w p : String) (s : DBState) (m : String),
      env.insertFail "POS Profile" DEFAULT_POS_PROFILE = some m →
      DEFAULT_POS_PROFILE ∉ s.cur.posProfiles →
      create_pos_profile env c w p s = (.ok none, s)) ∧
    (∀ (env : Env) (s : DBState) (m : String),
      env.insertFail "Customer" DEFAULT_CUSTOMER = some m →
      DEFAULT_CUSTOMER ∉ s.cur.customers →
      create_customer env s = (.error (.other m), s)) ∧
    (∀ (env : Env) (s : DBState) (m : String),
      (∀ dt n, dt ≠ "POS Profile" → env.insertFail dt n = none) →
      env.insertFail "POS Profile" DEFAULT_POS_PROFILE = some m →
      DEFAULT_POS_PROFILE ∉ s.cur.posProfiles →
      ∃ creds s', main env s = (.ok creds, s') ∧ creds.pos_profile_name = none) := by
  refine ⟨fun env c w p s => create_pos_profile_total env c w p s,
    fun env c w p s m hf hn => create_pos_profile_fail env c w p s m hn hf,
    fun env s m hf hn => create_customer_fail env s m hn hf,
    fun env s m hb hm hnp => ?_⟩
  obtain ⟨creds, s1, hmain, _, _, _, _, _, _, _, _, _, _, _, _, _, _, _, _, hppnone⟩ :=
    main_benign_except_pp env s hb
  exact ⟨creds, s1, hmain, hppnone (by rw [hm]; simp) hnp⟩

/-- Witness for C9 at concrete inputs: an all-failing environment for
the entity builders, and a POS-profile-only-failing environment for the
full `main` run from the empty database. -/
theorem C9_pos_profile_soft_failure_witness :
    (∃ r s', create_pos_profile envAllFail "c" "w" "p" ⟨emptyDB, emptyDB⟩ = (.ok r, s')) ∧
    create_pos_profile envAllFail "c" "w" "p" ⟨emptyDB, emptyDB⟩ =
      (.ok none, ⟨emptyDB, emptyDB⟩) ∧
    create_customer envAllFail ⟨emptyDB, emptyDB⟩ =
      (.error (.other "ValidationError"), ⟨emptyDB, emptyDB⟩) ∧
    (∃ creds s', main envFailPosProfile ⟨emptyDB, emptyDB⟩ = (.ok creds, s') ∧
      creds.pos_profile_name = none) :=
  ⟨C9_pos_profile_soft_failure.1 envAllFail "c" "w" "p" ⟨emptyDB, emptyDB⟩,
   C9_pos_profile_soft_failure.2.1 envAllFail "c" "w" "p" ⟨emptyDB, emptyDB⟩
     "ValidationError" rfl (by simp [emptyDB]),
   C9_pos_profile_soft_failure.2.2.1 envAllFail ⟨emptyDB, emptyDB⟩
     "ValidationError" rfl (by simp [emptyDB]),
   C9_pos_profile_soft_failure.2.2.2 envFailPosProfile ⟨emptyDB, emptyDB⟩ "boom"
     (fun dt n hne => by simp [envFailPosProfile, envNoFail, hne])
     rfl (by simp [emptyDB])⟩

/-- Environment whose only framework failure is the Company insert. -/
def envFailCompany : Env :=
  { envNoFail with
    insertFail := fun dt _ => if dt = "Company" then some "boom" else none }

/-- C4: when any step inside `main`'s try block raises, `main` performs
a database rollback (working state equals last committed state) and
re-raises that same exception instead of returning normally. -/
theorem C4_main_rollback_reraise (env : Env) (s : DBState) (e : PyErr)
    (h : (main_body env s).1 = .error e) :
    (main env s).1 = .error e ∧ (main env s).2.cur = (main env s).2.committed := by
  unfold main
  rcases hmb : main_body env s with ⟨r, s'⟩
  rw [hmb] at h
  rcases r with e' | c
  · simp only [Prod.fst] at h
    have he : e' = e := by injection h
    subst he
    exact ⟨rfl, rfl⟩
  · exact absurd h (by simp)

/-- Witness for C4: on an empty database with a failing Company insert,
the first step raises and `main` re-raises after rolling back. -/
theorem C4_main_rollback_reraise_witness :
    (main envFailCompany ⟨emptyDB, emptyDB⟩).1 = .error (.other "boom") ∧
    (main envFailCompany ⟨emptyDB, emptyDB⟩).2.cur =
      (main envFailCompany ⟨emptyDB, emptyDB⟩).2.committed :=
  C4_main_rollback_reraise envFailCompany ⟨emptyDB, emptyDB⟩ (.other "boom") rfl

/-! ## Claim theorems: API key generation (C2) -/

/-- C2: for every random draw, `generate_api_key` returns exactly 20
characters and `generate_api_secret` exactly 40, all of them ASCII
letters or digits. -/
theorem C2_api_key_secret_shape (draw draw' : Nat → Fin 62) :
    (generate_api_key draw).length = 20 ∧
    (generate_api_secret draw').length = 40 ∧
    (∀ c ∈ (generate_api_key draw).data, c.isAlphanum = true) ∧
    (∀ c ∈ (generate_api_secret draw').data, c.isAlphanum = true) := by
  have halpha : ∀ i : Fin 62, (secretsChoice i).isAlphanum = true := by decide
  refine ⟨?_, ?_, ?_, ?_⟩
  · show ((List.range 20).map fun i => secretsChoice (draw i)).length = 20
    simp
  · show ((List.range 40).map fun i => secretsChoice (draw' i)).length = 40
    simp
  · intro c hc
    simp only [generate_api_key, String.mk, List.mem_map] at hc
    obtain ⟨i, _, rfl⟩ := hc
    exact halpha _
  · intro c hc
    simp only [generate_api_secret, String.mk, List.mem_map] at hc
    obtain ⟨i, _, rfl⟩ := hc
    exact halpha _

end POSRepo
